import Mathlib

/-!
Verification of the DiMark optimization controller
(`apps/analytics/app/services/optimization/`): a shallow embedding of the
metrics pipeline, the decision engine, the guardrails, the action executor
and the outcome verifier, with theorems settling the spec claims.

Conventions of the embedding:
* Python `Decimal`/`float` arithmetic is modelled over `ℚ`.
* Python `round(x, n)` (banker's rounding, half to even) is `roundQ n x`.
* Timestamps are rational minutes; trend-window dates are integer days.
* SQLAlchemy tables are lists of rows inside a `Db` record; UUID primary
  keys are naturals drawn from an allocation counter.
* JSON payload dicts are structures of `Option` fields, one per key the
  code reads; a missing key is `none`.
-/

namespace DiMark

/-! ### Numeric helpers -/

/-- Python `round(x, n)`: round to `n` decimal places, ties to even.
The fractional part `y − ⌊y⌋` is compared against `1/2` in integer
arithmetic (`2·(y.num − ⌊y⌋·y.den)` versus `y.den`), which is equivalent
because `y.den > 0`. -/
def roundQ (n : ℕ) (x : ℚ) : ℚ :=
  let y : ℚ := x * (10 : ℚ) ^ n
  let f : ℤ := ⌊y⌋
  let twoFrac : ℤ := 2 * (y.num - f * y.den)
  let i : ℤ :=
    if twoFrac < y.den then f
    else if twoFrac > y.den then f + 1
    else if f % 2 = 0 then f else f + 1
  (i : ℚ) / (10 : ℚ) ^ n

/-- `_safe_div` from `metrics.py`: `None` when the denominator is zero. -/
def safeDiv (num den : ℚ) : Option ℚ :=
  if den = 0 then none else some (num / den)

/-- Python `a or b` on optional floats: `a` unless it is `None` or `0.0`. -/
def pyOr (a b : Option ℚ) : Option ℚ :=
  match a with
  | some v => if v = 0 then b else some v
  | none => b

/-- Lookup in an association list modelling a Python dict (`d.get(k)`). -/
def dictGet (d : List (String × ℚ)) (k : String) : Option ℚ :=
  (d.find? (fun p => p.1 = k)).map Prod.snd

/-- `d.get(k, default)`. -/
def dictGetD (d : List (String × ℚ)) (k : String) (dflt : ℚ) : ℚ :=
  (dictGet d k).getD dflt

/-- Dict assignment `d[k] = v`: overwrite in place or append. -/
def dictSet (d : List (String × ℚ)) (k : String) (v : ℚ) : List (String × ℚ) :=
  if d.any (fun p => p.1 = k) then
    d.map (fun p => if p.1 = k then (k, v) else p)
  else
    d ++ [(k, v)]

/-! ### Snapshots, raw metrics, derived KPIs (`metrics.py`) -/

/-- A `ChannelSnapshot` row: the only input data the core trusts. -/
structure Snapshot where
  campaignId : ℕ
  channel : String
  spend : ℚ
  impressions : ℚ
  clicks : ℚ
  conversions : ℚ
  revenue : ℚ
  windowStart : Option ℤ := none
  windowEnd : Option ℤ := none
deriving Repr, DecidableEq

/-- The five raw dimensions `_METRIC_DIMENSIONS`. -/
def metricDimensions : List String :=
  ["spend", "impressions", "clicks", "conversions", "revenue"]

/-- Project one dimension out of a snapshot. -/
def snapshotValue (s : Snapshot) (dim : String) : ℚ :=
  if dim = "spend" then s.spend
  else if dim = "impressions" then s.impressions
  else if dim = "clicks" then s.clicks
  else if dim = "conversions" then s.conversions
  else s.revenue

/-- A `RawMetric` row. -/
structure RawMetric where
  campaignId : ℕ
  channel : String
  metricName : String
  metricValue : ℚ
  windowStart : Option ℤ := none
  windowEnd : Option ℤ := none
deriving Repr, DecidableEq

/-- `MetricsCollector.collect`: five `RawMetric` rows per matching snapshot
(pure projection, zero values preserved). -/
def collectMetrics (snaps : List Snapshot) (cid : ℕ) : List RawMetric :=
  (snaps.filter (fun s => s.campaignId = cid)).flatMap (fun s =>
    metricDimensions.map (fun dim =>
      { campaignId := cid
        channel := s.channel
        metricName := dim
        metricValue := snapshotValue s dim
        windowStart := s.windowStart
        windowEnd := s.windowEnd }))

/-- Aggregated five-dimension totals used as `input_metrics`. -/
structure Totals where
  spend : ℚ := 0
  impressions : ℚ := 0
  clicks : ℚ := 0
  conversions : ℚ := 0
  revenue : ℚ := 0
deriving Repr, DecidableEq

/-- Sum one dimension of a raw-metric list. -/
def sumDim (ms : List RawMetric) (dim : String) : ℚ :=
  (ms.filter (fun m => m.metricName = dim)).foldl (fun a m => a + m.metricValue) 0

/-- Channel totals: sum each dimension across the channel's raw metrics. -/
def channelTotals (ms : List RawMetric) (ch : String) : Totals :=
  let mine := ms.filter (fun m => m.channel = ch)
  { spend := sumDim mine "spend"
    impressions := sumDim mine "impressions"
    clicks := sumDim mine "clicks"
    conversions := sumDim mine "conversions"
    revenue := sumDim mine "revenue" }

/-- Campaign-wide totals. -/
def campaignTotals (ms : List RawMetric) : Totals :=
  { spend := sumDim ms "spend"
    impressions := sumDim ms "impressions"
    clicks := sumDim ms "clicks"
    conversions := sumDim ms "conversions"
    revenue := sumDim ms "revenue" }

/-- Channels in order of first appearance (Python dict insertion order). -/
def channelsOf (ms : List RawMetric) : List String :=
  ms.foldl (fun acc m => if acc.contains m.channel then acc else acc ++ [m.channel]) []

/-- `KPICalculator._calculate_kpis`: the six KPIs via the safe-division rule. -/
def calculateKpis (t : Totals) : List (String × Option ℚ) :=
  [ ("ctr", safeDiv t.clicks t.impressions)
  , ("cvr", safeDiv t.conversions t.clicks)
  , ("cpc", safeDiv t.spend t.clicks)
  , ("cpm", safeDiv (t.spend * 1000) t.impressions)
  , ("cpa", safeDiv t.spend t.conversions)
  , ("roas", safeDiv t.revenue t.spend) ]

/-- A `DerivedKPI` row; `channel = none` denotes campaign level. -/
structure DerivedKPI where
  campaignId : ℕ
  channel : Option String
  kpiName : String
  kpiValue : ℚ
  windowStart : Option ℤ := none
  windowEnd : Option ℤ := none
  inputMetrics : Totals
deriving Repr, DecidableEq

/-- KPI rows for one aggregation bucket: rows whose value is `None` are
omitted entirely. -/
def kpiRowsFor (cid : ℕ) (channel : Option String) (t : Totals)
    (ws we : Option ℤ) : List DerivedKPI :=
  (calculateKpis t).filterMap (fun p =>
    p.2.map (fun v =>
      { campaignId := cid
        channel := channel
        kpiName := p.1
        kpiValue := v
        windowStart := ws
        windowEnd := we
        inputMetrics := t }))

/-- `KPICalculator.compute` on an explicit raw-metric list: per-channel rows
then campaign-level rows. -/
def kpiCompute (cid : ℕ) (ms : List RawMetric) (ws we : Option ℤ) : List DerivedKPI :=
  ((channelsOf ms).flatMap (fun ch =>
    kpiRowsFor cid (some ch) (channelTotals ms ch) ws we))
  ++ kpiRowsFor cid none (campaignTotals ms) ws we

/-- The denominator dimension of each KPI (safe-division rule). -/
def kpiDenominator (t : Totals) (kpiName : String) : ℚ :=
  if kpiName = "ctr" then t.impressions
  else if kpiName = "cvr" then t.clicks
  else if kpiName = "cpc" then t.clicks
  else if kpiName = "cpm" then t.impressions
  else if kpiName = "cpa" then t.conversions
  else t.spend

/-- `generate_measurement_report` (`measurement.py`): the per-channel
`efficiency_index` — conversion-share ÷ spend-share over the campaign's
snapshots.  This lives in the measurement layer, not in `KPICalculator`. -/
def efficiencyIndex (snaps : List Snapshot) (cid : ℕ) (ch : String) : Option ℚ :=
  let mine := snaps.filter (fun s => s.campaignId == cid)
  let totalSpend := (mine.map (·.spend)).sum
  let totalConversions := (mine.map (·.conversions)).sum
  let chSpend := ((mine.filter (fun s => s.channel == ch)).map (·.spend)).sum
  let chConversions := ((mine.filter (fun s => s.channel == ch)).map (·.conversions)).sum
  let spendShare := if totalSpend ≠ 0 then safeDiv chSpend totalSpend else none
  let conversionShare := if totalConversions ≠ 0 then safeDiv chConversions totalConversions else none
  match spendShare, conversionShare with
  | some ss, some cs => if ss = 0 then none else some (cs / ss)
  | _, _ => none

/-! ### Trend analyzer (`metrics.py`) -/

/-- A `TrendIndicator` row (also the dict shape the engine hands methods). -/
structure TrendRow where
  campaignId : ℕ
  channel : Option String
  kpiName : String
  direction : String
  magnitude : ℚ
  periodDays : ℤ
  currentValue : ℚ
  previousValue : ℚ
  confidence : ℚ
deriving Repr, DecidableEq

/-- Keys of a KPI-row selection in first-appearance order. -/
def trendKeysOf (rows : List DerivedKPI) : List (Option String × String) :=
  rows.foldl (fun acc r =>
    if acc.contains (r.channel, r.kpiName) then acc else acc ++ [(r.channel, r.kpiName)]) []

/-- `TrendAnalyzer._load_kpis`: rows of the campaign whose (non-null) windows
fall inside `[s, e]`, averaged per `(channel, kpi_name)`.  Rows with a null
window never match the SQL range filter. -/
def loadKpisWindow (rows : List DerivedKPI) (cid : ℕ) (s e : ℤ) :
    List ((Option String × String) × ℚ) :=
  let sel := rows.filter (fun r =>
    r.campaignId == cid &&
    (match r.windowStart, r.windowEnd with
     | some ws, some we => decide (s ≤ ws ∧ we ≤ e)
     | _, _ => false))
  (trendKeysOf sel).map (fun k =>
    let vals := (sel.filter (fun r => r.channel = k.1 ∧ r.kpiName = k.2)).map (·.kpiValue)
    (k, vals.sum / vals.length))

/-- `TrendAnalyzer.analyze`: compare the `[today−p, today]` bucket against
`[today−2p, today−p]` per key present in both; skip keys whose previous
value is zero.  The source iterates a Python set intersection; the model
fixes the (irrelevant) order to the current bucket's key order. -/
def trendAnalyze (rows : List DerivedKPI) (cid : ℕ) (today : ℤ)
    (periodDays : ℤ := 7) : List TrendRow :=
  let currentKpis := loadKpisWindow rows cid (today - periodDays) today
  let previousKpis := loadKpisWindow rows cid (today - 2 * periodDays) (today - periodDays)
  currentKpis.filterMap (fun kc =>
    match (previousKpis.find? (fun kp => kp.1 = kc.1)).map Prod.snd with
    | none => none
    | some previousVal =>
      if previousVal = 0 then none
      else
        let currentVal := kc.2
        let change := (currentVal - previousVal) / |previousVal|
        let direction :=
          if change > 1/50 then "improving"
          else if change < -(1/50) then "declining"
          else "stable"
        some
          { campaignId := cid
            channel := kc.1.1
            kpiName := kc.1.2
            direction := direction
            magnitude := roundQ 4 |change|
            periodDays := periodDays
            currentValue := roundQ 6 currentVal
            previousValue := roundQ 6 previousVal
            confidence := roundQ 4 (min (9/10) (1/2 + |change|)) })

/-! ### Method context and payloads (`methods/base.py`) -/

/-- One entry of the engine-built `channel_data` list. -/
structure ChannelData where
  channel : String
  kpis : List (String × ℚ)
  totals : Totals
deriving Repr, DecidableEq

/-- `MethodContext`: immutable snapshot handed to every method.  The unused
`raw_metrics` field (read by no built-in method) is omitted. -/
structure MethodContext where
  campaignId : ℕ
  kpis : List (String × ℚ)
  trends : List TrendRow
  channelData : List ChannelData
  currentAllocations : List (String × ℚ)
  objective : String := "paid_conversions"
  targetCac : Option ℚ := none
deriving Repr, DecidableEq

/-- The `action_payload` dict: one optional field per key the core reads.
The CPA-spike `affected_channels` evidence dicts are reduced to their
channel names (no consumer reads the other entries). -/
structure Payload where
  newAllocations : Option (List (String × ℚ)) := none
  reductions : Option (List (String × ℚ)) := none
  affectedChannels : Option (List String) := none
  reductionPct : Option ℚ := none
  topTier : Option (List String) := none
  bottomTier : Option (List String) := none
  moveAmount : Option ℚ := none
  channels : Option (List (Option String)) := none
  fatiguedChannels : Option (List (Option String)) := none
  platform : Option String := none
deriving Repr, DecidableEq

/-- `MethodEvaluation`: output when a method fires.  The human-readable
`reasoning` and the `trigger_data` evidence blob are not modelled. -/
structure MethodEvaluation where
  shouldFire : Bool
  confidence : ℚ
  priority : ℕ
  actionType : String
  actionPayload : Payload
deriving Repr, DecidableEq

/-! ### CPA-Spike method (`methods/cpa_spike.py`) -/

/-- Entry of the local `affected_channels` list (the `pct_change` stored and
later maxed over is the 4-decimal-rounded one). -/
structure AffectedChannel where
  channel : String
  currentCpa : ℚ
  previousCpa : ℚ
  pctChange : ℚ
  spend : ℚ
deriving Repr, DecidableEq

/-- `CPASpikeMethod._get_previous_cpa`: first trend for the channel whose
KPI is `cpa` or `cac`. -/
def getPreviousCpa (ctx : MethodContext) (channel : String) : Option ℚ :=
  (ctx.trends.find? (fun t =>
    t.channel = some channel ∧ (t.kpiName = "cpa" ∨ t.kpiName = "cac"))).map
    (·.previousValue)

/-- `CPASpikeMethod.check_preconditions`: channel data present and a truthy
campaign-level CPA (`not ctx.kpis.get("cpa")` is Python-falsy on 0.0). -/
def cpaSpikePreconditions (ctx : MethodContext) : Bool :=
  !ctx.channelData.isEmpty &&
    (match dictGet ctx.kpis "cpa" with
     | some v => v ≠ 0
     | none => false)

/-- `CPASpikeMethod.evaluate` with the default config
(`spike_threshold=0.30`, `min_channel_spend=100`, `budget_reduction_pct=0.20`). -/
def cpaSpikeEvaluate (ctx : MethodContext) : Option MethodEvaluation :=
  let campaignCpa := dictGetD ctx.kpis "cpa" 0
  if campaignCpa ≤ 0 then none
  else
    let affected : List AffectedChannel := ctx.channelData.filterMap (fun ch =>
      match pyOr (dictGet ch.kpis "cpa") (dictGet ch.kpis "cac") with
      | none => none
      | some channelCpa =>
        if ch.totals.spend < (100 : ℚ) then none
        else
          let previousCpa :=
            match getPreviousCpa ctx ch.channel with
            | some p => if p ≤ 0 then campaignCpa else p
            | none => campaignCpa
          let pctChange := (channelCpa - previousCpa) / previousCpa
          if pctChange ≥ 3/10 then
            some
              { channel := ch.channel
                currentCpa := channelCpa
                previousCpa := previousCpa
                pctChange := roundQ 4 pctChange
                spend := ch.totals.spend }
          else none)
    match affected with
    | [] => none
    | a0 :: rest =>
      let reductions := affected.foldl (fun acc a =>
        let currentAlloc := dictGetD ctx.currentAllocations a.channel 0
        if currentAlloc > 0 then
          dictSet acc a.channel (roundQ 2 (currentAlloc * (1/5)))
        else acc) []
      if reductions.isEmpty then none
      else
        let maxChange := rest.foldl (fun m a => max m a.pctChange) a0.pctChange
        some
          { shouldFire := true
            confidence := roundQ 4 (min (19/20) (3/5 + maxChange))
            priority := 2
            actionType := "budget_reallocation"
            actionPayload :=
              { reductions := some reductions
                affectedChannels := some (affected.map (·.channel))
                reductionPct := some (1/5) } }

/-! ### Budget-Reallocation method (`methods/budget_reallocation.py`) -/

/-- `BudgetReallocationMethod.check_preconditions` (defaults:
`min_channels=2`). -/
def budgetReallocPreconditions (ctx : MethodContext) : Bool :=
  ctx.channelData.length ≥ 2 && !ctx.currentAllocations.isEmpty

/-- Channels carrying an `efficiency_index`, scored. -/
def scoredChannels (ctx : MethodContext) : List (String × ℚ) :=
  ctx.channelData.filterMap (fun ch =>
    (dictGet ch.kpis "efficiency_index").map (fun e => (ch.channel, e)))

/-- Stable sort by efficiency descending (Python `sort(reverse=True)`). -/
def sortScored (scored : List (String × ℚ)) : List (String × ℚ) :=
  scored.mergeSort (fun a b => b.2 ≤ a.2)

/-- `BudgetReallocationMethod.evaluate` with the default config
(`efficiency_spread_threshold=0.20`, `min_channels=2`). -/
def budgetReallocEvaluate (ctx : MethodContext) : Option MethodEvaluation :=
  let scored := scoredChannels ctx
  if scored.length < 2 then none
  else
    match sortScored scored with
    | [] => none
    | best :: restSorted =>
      let sorted := best :: restSorted
      let worst := sorted.getLast (List.cons_ne_nil _ _)
      let spread := best.2 - worst.2
      let relativeSpread := if best.2 > 0 then spread / best.2 else 0
      if relativeSpread < 1/5 then none
      else
        let tierSize := max 1 (sorted.length / 4)
        let topTier := (sorted.take tierSize).map Prod.fst
        let bottomTier := (sorted.drop (sorted.length - tierSize)).map Prod.fst
        let totalBudget := (ctx.currentAllocations.map Prod.snd).sum
        if totalBudget ≤ 0 then none
        else
          let moveAmount := roundQ 2 (totalBudget * (1/10))
          let reductionPerChannel :=
            if bottomTier.isEmpty then 0 else roundQ 2 (moveAmount / bottomTier.length)
          let increasePerChannel :=
            if topTier.isEmpty then 0 else roundQ 2 (moveAmount / topTier.length)
          let afterBottom := bottomTier.foldl (fun acc chName =>
            dictSet acc chName (roundQ 2 (max 0 (dictGetD acc chName 0 - reductionPerChannel))))
            ctx.currentAllocations
          let newAllocations := topTier.foldl (fun acc chName =>
            dictSet acc chName (roundQ 2 (dictGetD acc chName 0 + increasePerChannel)))
            afterBottom
          some
            { shouldFire := true
              confidence := roundQ 4 (min (9/10) (1/2 + relativeSpread))
              priority := 5
              actionType := "budget_reallocation"
              actionPayload :=
                { newAllocations := some newAllocations
                  topTier := some topTier
                  bottomTier := some bottomTier
                  moveAmount := some moveAmount } }

/-! ### Creative-Fatigue method (`methods/creative_fatigue.py`) -/

/-- `CreativeFatigueMethod._get_channel_impressions`. -/
def channelImpressions (ctx : MethodContext) (channel : Option String) : ℚ :=
  match ctx.channelData.find? (fun ch => some ch.channel = channel) with
  | some ch => ch.totals.impressions
  | none => 0

/-- `CreativeFatigueMethod.check_preconditions`. -/
def creativeFatiguePreconditions (ctx : MethodContext) : Bool :=
  !ctx.trends.isEmpty && !ctx.channelData.isEmpty

/-- `CreativeFatigueMethod.evaluate` with the default config
(`ctr_decline_threshold=0.15`, `min_impressions=10_000`). -/
def creativeFatigueEvaluate (ctx : MethodContext) : Option MethodEvaluation :=
  let fatigued : List (Option String × ℚ) := ctx.trends.filterMap (fun t =>
    if t.kpiName ≠ "ctr" then none
    else if t.direction ≠ "declining" then none
    else
      let magnitude := |t.magnitude|
      if magnitude < 3/20 then none
      else if channelImpressions ctx t.channel < 10000 then none
      else some (t.channel, roundQ 4 magnitude))
  match fatigued with
  | [] => none
  | f0 :: rest =>
    let maxDecline := rest.foldl (fun m f => max m f.2) f0.2
    some
      { shouldFire := true
        confidence := roundQ 4 (min (17/20) (2/5 + maxDecline))
        priority := 6
        actionType := "creative_refresh"
        actionPayload :=
          { channels := some (fatigued.map (·.1))
            fatiguedChannels := some (fatigued.map (·.1)) } }

/-! ### Registry (`methods/base.py`, `methods/__init__.py`) -/

/-- `build_default_registry` order: CPA-spike, Budget-reallocation,
Creative-fatigue (dict insertion order). -/
def defaultMethods :
    List ((MethodContext → Bool) × (MethodContext → Option MethodEvaluation)) :=
  [ (cpaSpikePreconditions, cpaSpikeEvaluate)
  , (budgetReallocPreconditions, budgetReallocEvaluate)
  , (creativeFatiguePreconditions, creativeFatigueEvaluate) ]

/-- `MethodRegistry.evaluate_all`: preconditions short-circuit, only firing
evaluations are kept. -/
def evaluateAll (ctx : MethodContext) : List MethodEvaluation :=
  defaultMethods.foldl (fun acc m =>
    if m.1 ctx then
      match m.2 ctx with
      | some evaluation => if evaluation.shouldFire then acc ++ [evaluation] else acc
      | none => acc
    else acc) []

/-! ### Guardrails (`guardrails.py`) -/

/-- `GuardrailCheckResult` (the human-readable message is not modelled). -/
structure GuardrailCheckResult where
  passed : Bool
  ruleName : String
deriving Repr, DecidableEq

/-- `check_budget_change_limit` (default `max_change_pct=0.20`): passes when
no allocations accompany the evaluation; otherwise no channel with non-zero
current budget may move by more than the cap. -/
def checkBudgetChangeLimit (currentAllocations : List (String × ℚ))
    (proposedAllocations : Option (List (String × ℚ)))
    (maxChangePct : ℚ := 1/5) : GuardrailCheckResult :=
  match proposedAllocations with
  | none => { passed := true, ruleName := "budget_change_limit" }
  | some proposed =>
    let violations := currentAllocations.filter (fun p =>
      p.2 ≠ 0 ∧ |dictGetD proposed p.1 p.2 - p.2| / p.2 > maxChangePct)
    { passed := violations.isEmpty, ruleName := "budget_change_limit" }

/-- `check_minimum_channel_floor` (default `min_floor_pct=0.05`): channels
at or below zero are treated as intentionally paused. -/
def checkMinimumChannelFloor (proposedAllocations : Option (List (String × ℚ)))
    (minFloorPct : ℚ := 1/20) : GuardrailCheckResult :=
  match proposedAllocations with
  | none => { passed := true, ruleName := "minimum_channel_floor" }
  | some proposed =>
    let total := (proposed.map Prod.snd).sum
    if total ≤ 0 then { passed := true, ruleName := "minimum_channel_floor" }
    else
      let violations := proposed.filter (fun p => p.2 > 0 ∧ p.2 / total < minFloorPct)
      { passed := violations.isEmpty, ruleName := "minimum_channel_floor" }

/-- `check_rate_limit` (default `max_per_hour=3`): count the timestamps in
the sliding one-hour window ending at `now` (timestamps in minutes). -/
def checkRateLimit (recentProposalTimes : List ℚ) (now : ℚ)
    (maxPerHour : ℕ := 3) : GuardrailCheckResult :=
  let recentCount := (recentProposalTimes.filter (fun t => t ≥ now - 60)).length
  { passed := recentCount < maxPerHour, ruleName := "rate_limit" }

/-- `check_cooldown` (default `cooldown_minutes=60`): violation iff the
method fired less than the cooldown ago. -/
def checkCooldown (_methodName : String) (lastFiredAt : Option ℚ) (now : ℚ)
    (cooldownMinutes : ℚ := 60) : GuardrailCheckResult :=
  match lastFiredAt with
  | none => { passed := true, ruleName := "cooldown" }
  | some t => { passed := ¬(now - t < cooldownMinutes), ruleName := "cooldown" }

/-! ### Settings (`settings.py` defaults) -/

def autoApproveThreshold : ℚ := 17/20
def maxProposalsPerHour : ℕ := 3
def maxBudgetChangePct : ℚ := 1/5
def minChannelFloorPct : ℚ := 1/20
def defaultCooldownMinutes : ℚ := 60
def verificationDelayHours : ℚ := 24

/-! ### Database rows (`models.py`) -/

/-- A `Campaign` row (only the fields the core reads). -/
structure CampaignRow where
  id : ℕ
  objective : String := "paid_conversions"
  targetCac : Option ℚ := none
deriving Repr, DecidableEq

/-- `OptimizationMethod.stats_json`: a JSON dict whose keys may be absent
(`stats.get(key, default)` in the source). -/
structure MethodStats where
  totalExecutions : Option ℕ := none
  successfulExecutions : Option ℕ := none
  avgAccuracy : Option ℚ := none
  lastVerifiedAt : Option ℚ := none
deriving Repr, DecidableEq

/-- An `OptimizationMethod` row. -/
structure MethodRow where
  id : ℕ
  name : String
  methodType : String := "reactive"
  isActive : Bool := true
  cooldownMinutes : ℚ := 60
  stats : MethodStats := {}
deriving Repr, DecidableEq

/-- `Proposal.execution_result_json` (the keys the executor writes). -/
structure ExecutionResultInfo where
  executionId : Option ℕ := none
  success : Option Bool := none
  error : Option String := none
deriving Repr, DecidableEq

/-- An `OptimizationProposal` row. -/
structure ProposalRow where
  id : ℕ
  campaignId : ℕ
  methodId : ℕ
  status : String
  confidence : ℚ
  priority : ℕ
  actionType : String
  actionPayload : Payload := {}
  guardrailChecks : List GuardrailCheckResult := []
  approvedBy : Option String := none
  approvedAt : Option ℚ := none
  executedAt : Option ℚ := none
  expiresAt : Option ℚ := none
  executionResult : Option ExecutionResultInfo := none
  createdAt : ℚ
deriving Repr, DecidableEq

/-- An `Execution` row. -/
structure ExecutionRow where
  id : ℕ
  campaignId : ℕ
  platform : String
  status : String
  idempotencyKey : String
deriving Repr, DecidableEq

/-- An `ExecutionAction` row. -/
structure ExecutionActionRow where
  id : ℕ
  executionId : ℕ
  actionType : String
  idempotencyKey : String
  status : String
deriving Repr, DecidableEq

/-- An `OptimizationLearning` row. -/
structure LearningRow where
  id : ℕ
  campaignId : ℕ
  proposalId : ℕ
  methodId : ℕ
  accuracyScore : Option ℚ := none
  verificationStatus : String
  verifiedAt : Option ℚ := none
deriving Repr, DecidableEq

/-- A `MonitorRun` audit row. -/
structure MonitorRunRow where
  id : ℕ
  campaignId : ℕ
  status : String
deriving Repr, DecidableEq

/-- The relational store.  `nextId` allocates surrogate primary keys. -/
structure Db where
  campaigns : List CampaignRow := []
  snapshots : List Snapshot := []
  rawMetrics : List RawMetric := []
  derivedKpis : List DerivedKPI := []
  trendIndicators : List TrendRow := []
  methods : List MethodRow := []
  proposals : List ProposalRow := []
  executions : List ExecutionRow := []
  executionActions : List ExecutionActionRow := []
  learnings : List LearningRow := []
  monitorRuns : List MonitorRunRow := []
  nextId : ℕ := 0
deriving Repr, DecidableEq

/-! ### Decision engine (`engine.py`) -/

/-- `EngineResult` summary. -/
structure EngineResult where
  success : Bool
  campaignId : ℕ
  proposalsCreated : ℕ := 0
  proposalsAutoApproved : ℕ := 0
  proposalsQueued : ℕ := 0
  guardrailRejections : ℕ := 0
  methodEvaluations : ℕ := 0
  errors : List String := []
deriving Repr, DecidableEq

/-- `channel_raw.setdefault(ch, {})[name] = value`: last write wins per
`(channel, metric_name)` over the freshly collected metrics. -/
def lastMetricValue (ms : List RawMetric) (ch dim : String) : Option ℚ :=
  ((ms.filter (fun m => m.channel == ch && m.metricName == dim)).getLast?).map
    (·.metricValue)

/-- Campaign-level `kpis_dict` from the computed KPI rows. -/
def campaignKpisOf (kpiRows : List DerivedKPI) : List (String × ℚ) :=
  kpiRows.foldl (fun acc k =>
    match k.channel with
    | none => dictSet acc k.kpiName k.kpiValue
    | some _ => acc) []

/-- Channels of the per-channel KPI rows, in first-appearance order. -/
def kpiChannelsOf (kpiRows : List DerivedKPI) : List String :=
  kpiRows.foldl (fun acc k =>
    match k.channel with
    | some c => if acc.contains c then acc else acc ++ [c]
    | none => acc) []

/-- Per-channel KPI dict from the computed KPI rows. -/
def channelKpisOf (kpiRows : List DerivedKPI) (ch : String) : List (String × ℚ) :=
  kpiRows.foldl (fun acc k =>
    if k.channel == some ch then dictSet acc k.kpiName k.kpiValue else acc) []

/-- `channel_data` totals: `raw.get(dim, 0)` over the last-write-wins
per-channel raw map. -/
def engineChannelTotals (ms : List RawMetric) (ch : String) : Totals :=
  { spend := (lastMetricValue ms ch "spend").getD 0
    impressions := (lastMetricValue ms ch "impressions").getD 0
    clicks := (lastMetricValue ms ch "clicks").getD 0
    conversions := (lastMetricValue ms ch "conversions").getD 0
    revenue := (lastMetricValue ms ch "revenue").getD 0 }

/-- Engine step 2: collect, derive, analyse, and assemble the
`MethodContext`.  Returns the context together with the rows to persist.
Factoring through the three read-only inputs (snapshots, pre-existing
derived KPIs, campaign) makes the determinism of a repeated run explicit. -/
def buildContext (snaps : List Snapshot) (existingKpis : List DerivedKPI)
    (campaign : CampaignRow) (cid : ℕ) (today : ℤ) :
    MethodContext × List RawMetric × List DerivedKPI × List TrendRow :=
  let rawMetrics := collectMetrics snaps cid
  let kpiRows := kpiCompute cid rawMetrics none none
  let trends := trendAnalyze (existingKpis ++ kpiRows) cid today
  let channels := kpiChannelsOf kpiRows
  let channelData := channels.map (fun ch =>
    { channel := ch
      kpis := channelKpisOf kpiRows ch
      totals := engineChannelTotals rawMetrics ch })
  let ctx : MethodContext :=
    { campaignId := cid
      kpis := campaignKpisOf kpiRows
      trends := trends
      channelData := channelData
      currentAllocations := channels.map (fun ch =>
        (ch, (lastMetricValue rawMetrics ch "spend").getD 0))
      objective := campaign.objective
      targetCac := campaign.targetCac }
  (ctx, rawMetrics, kpiRows, trends)

/-- `DecisionEngine._get_last_fired`: latest `created_at` among the
campaign's proposals of this action type. -/
def lastFiredAt (proposals : List ProposalRow) (cid : ℕ) (actionType : String) :
    Option ℚ :=
  ((proposals.filter (fun p =>
    p.campaignId == cid && p.actionType == actionType)).map (·.createdAt)).max?

/-- Engine step 4 for one evaluation: rate limit, cooldown, and (for
`budget_reallocation` only) budget-change and floor checks on
`action_payload["new_allocations"]`. -/
def guardrailChecksFor (proposals : List ProposalRow) (cid : ℕ)
    (currentAllocations : List (String × ℚ)) (recentTimes : List ℚ) (now : ℚ)
    (evaluation : MethodEvaluation) : List GuardrailCheckResult :=
  let rateCheck := checkRateLimit recentTimes now maxProposalsPerHour
  let cooldownCheck := checkCooldown evaluation.actionType
    (lastFiredAt proposals cid evaluation.actionType) now defaultCooldownMinutes
  if evaluation.actionType == "budget_reallocation" then
    [ rateCheck, cooldownCheck
    , checkBudgetChangeLimit currentAllocations
        evaluation.actionPayload.newAllocations maxBudgetChangePct
    , checkMinimumChannelFloor evaluation.actionPayload.newAllocations
        minChannelFloorPct ]
  else [rateCheck, cooldownCheck]

/-- `DecisionEngine._ensure_method_row`: get or lazily create the
`OptimizationMethod` row named after the action type. -/
def ensureMethodRow (methods : List MethodRow) (nextId : ℕ) (name : String) :
    MethodRow × List MethodRow × ℕ :=
  match methods.find? (fun m => m.name == name) with
  | some m => (m, methods, nextId)
  | none =>
    let m : MethodRow :=
      { id := nextId, name := name, methodType := "reactive"
        cooldownMinutes := defaultCooldownMinutes }
    (m, methods ++ [m], nextId + 1)

/-- The loop body of engine step 5 for one surviving evaluation: ensure
the method row, then append the `pending` proposal. -/
def createProposalStep (cid : ℕ) (now : ℚ)
    (st : List MethodRow × ℕ × List ProposalRow)
    (pe : MethodEvaluation × List GuardrailCheckResult) :
    List MethodRow × ℕ × List ProposalRow :=
  let (mrow, methods', nid') := ensureMethodRow st.1 st.2.1 pe.1.actionType
  let p : ProposalRow :=
    { id := nid'
      campaignId := cid
      methodId := mrow.id
      status := "pending"
      confidence := pe.1.confidence
      priority := pe.1.priority
      actionType := pe.1.actionType
      actionPayload := pe.1.actionPayload
      guardrailChecks := pe.2
      expiresAt := some (now + 24 * 60)
      createdAt := now }
  (methods', nid' + 1, st.2.2 ++ [p])

/-- Engine step 5: persist one `pending` proposal per surviving evaluation,
threading the lazily created method rows and the id allocator. -/
def createProposals (cid : ℕ) (now : ℚ)
    (passing : List (MethodEvaluation × List GuardrailCheckResult))
    (methods : List MethodRow) (nextId : ℕ) :
    List MethodRow × ℕ × List ProposalRow :=
  passing.foldl (createProposalStep cid now) (methods, nextId, [])

/-- `DecisionEngine._adjust_confidence`: data-sparsity calibration,
clamped to `[0,1]` and rounded to 4 decimals. -/
def adjustConfidence (confidence : ℚ) (snapshotCount rawMetricCount : ℕ) : ℚ :=
  let c1 :=
    if snapshotCount < 5 then confidence * (4/5)
    else if snapshotCount < 10 then confidence * (9/10)
    else confidence
  let c2 := if rawMetricCount < 10 then c1 * (17/20) else c1
  roundQ 4 (min 1 (max 0 c2))

/-- Engine step 7: auto-approve at the calibrated-confidence threshold,
otherwise leave pending. -/
def routeProposal (now : ℚ) (p : ProposalRow) : ProposalRow :=
  if p.confidence ≥ autoApproveThreshold then
    { p with status := "auto_approved", approvedBy := some "engine"
             approvedAt := some now }
  else { p with status := "pending" }

/-- Steps 6–7 for one freshly created proposal. -/
def calibrateAndRoute (now : ℚ) (snapshotCount rawMetricCount : ℕ)
    (p : ProposalRow) : ProposalRow :=
  routeProposal now
    { p with confidence := adjustConfidence p.confidence snapshotCount rawMetricCount }

/-- `DecisionEngine.run`: the 8-step pipeline over the store. -/
def engineRun (db : Db) (cid : ℕ) (now : ℚ) (today : ℤ) : EngineResult × Db :=
  match db.campaigns.find? (fun c => c.id == cid) with
  | none =>
    ({ success := false, campaignId := cid
       errors := ["Campaign " ++ toString cid ++ " not found"] }, db)
  | some campaign =>
    let snapshotCount := (db.snapshots.filter (fun s => s.campaignId == cid)).length
    if snapshotCount = 0 then
      ({ success := false, campaignId := cid
         errors := ["No channel snapshots available for this campaign"] }, db)
    else
      let built := buildContext db.snapshots db.derivedKpis campaign cid today
      let ctx := built.1
      let rawMetrics := built.2.1
      let db1 := { db with
        rawMetrics := db.rawMetrics ++ built.2.1
        derivedKpis := db.derivedKpis ++ built.2.2.1
        trendIndicators := db.trendIndicators ++ built.2.2.2 }
      let evaluations := evaluateAll ctx
      if evaluations.isEmpty then
        ({ success := true, campaignId := cid, methodEvaluations := 0 }, db1)
      else
        let recentTimes := (db.proposals.filter (fun p =>
          p.campaignId == cid && p.createdAt ≥ now - 60)).map (·.createdAt)
        let checked := evaluations.map (fun e =>
          (e, guardrailChecksFor db.proposals cid ctx.currentAllocations recentTimes now e))
        let passing := checked.filter (fun ec => ec.2.all (·.passed))
        let created := createProposals cid now passing db1.methods db1.nextId
        let finalRows := created.2.2.map
          (calibrateAndRoute now snapshotCount rawMetrics.length)
        let db2 := { db1 with
          methods := created.1
          nextId := created.2.1
          proposals := db1.proposals ++ finalRows }
        ({ success := true
           campaignId := cid
           proposalsCreated := finalRows.length
           proposalsAutoApproved :=
             (finalRows.filter (fun p => p.status == "auto_approved")).length
           proposalsQueued :=
             (finalRows.filter (fun p => p.status != "auto_approved")).length
           guardrailRejections := checked.length - passing.length
           methodEvaluations := evaluations.length }, db2)

/-! ### Action executor (`executor.py`)

The executor is modelled in its core configuration: the DryRun platform
adapter (`USE_DRY_RUN_EXECUTION=true`, the constructor default), where
`pause_campaign`/`resume_campaign` always succeed and `update_budget`
succeeds iff the new budget is positive. -/

/-- `ExecutionRecord` (the raw `platform_result` blob is not modelled). -/
structure ExecutionRecord where
  success : Bool
  proposalId : ℕ
  executionId : Option ℕ := none
  error : Option String := none
deriving Repr, DecidableEq

/-- Platform from `payload.get("platform", "meta")`; unknown values fall
back to `Platform.META`. -/
def resolvePlatform (payload : Payload) : String :=
  let s := payload.platform.getD "meta"
  if s = "meta" ∨ s = "google" ∨ s = "linkedin" then s else "meta"

/-- Update a proposal row in place. -/
def setProposal (proposals : List ProposalRow) (pid : ℕ)
    (f : ProposalRow → ProposalRow) : List ProposalRow :=
  proposals.map (fun p => if p.id == pid then f p else p)

/-- `ActionExecutor._execute_advisory`: record the action, no platform call. -/
def executeAdvisory (db : Db) (proposal : ProposalRow) (key : String)
    (now : ℚ) : ExecutionRecord × Db :=
  let executionId := db.nextId
  let execution : ExecutionRow :=
    { id := executionId, campaignId := proposal.campaignId
      platform := "advisory", status := "completed", idempotencyKey := key }
  let action : ExecutionActionRow :=
    { id := db.nextId + 1, executionId := executionId
      actionType := proposal.actionType
      idempotencyKey := key ++ "-advisory", status := "completed" }
  let db' := { db with
    executions := db.executions ++ [execution]
    executionActions := db.executionActions ++ [action]
    proposals := setProposal db.proposals proposal.id (fun p =>
      { p with status := "executed", executedAt := some now
               executionResult := some
                 { executionId := some executionId, success := some true } })
    nextId := db.nextId + 2 }
  ({ success := true, proposalId := proposal.id
     executionId := some executionId }, db')

/-- The per-sub-operation dispatch of `_execute_budget_reallocation`,
`_execute_pause` and `_execute_resume`, returning the `ExecutionAction`
rows and the overall success flag. -/
def subActionsFor (proposal : ProposalRow) (executionId : ℕ) (key : String)
    (firstActionId : ℕ) : List ExecutionActionRow × Bool :=
  if proposal.actionType == "budget_reallocation" then
    let allocs := proposal.actionPayload.newAllocations.getD []
    (allocs.enum.map (fun ip =>
      { id := firstActionId + ip.1, executionId := executionId
        actionType := "update_budget"
        idempotencyKey := key ++ "-budget-" ++ ip.2.1
        status := if ip.2.2 > (0 : ℚ) then "completed" else "failed" }),
     allocs.all (fun p => p.2 > 0))
  else if proposal.actionType == "pause_channel" then
    let affected := proposal.actionPayload.affectedChannels.getD []
    (affected.enum.map (fun ip =>
      { id := firstActionId + ip.1, executionId := executionId
        actionType := "pause_campaign"
        idempotencyKey := key ++ "-pause-" ++ ip.2
        status := "completed" }), true)
  else
    let affected := proposal.actionPayload.affectedChannels.getD []
    (affected.enum.map (fun ip =>
      { id := firstActionId + ip.1, executionId := executionId
        actionType := "resume_campaign"
        idempotencyKey := key ++ "-resume-" ++ ip.2
        status := "completed" }), true)

/-- `ActionExecutor._execute_platform_action`. -/
def executePlatformAction (db : Db) (proposal : ProposalRow) (key : String)
    (now : ℚ) : ExecutionRecord × Db :=
  let platform := resolvePlatform proposal.actionPayload
  let executionId := db.nextId
  let sub := subActionsFor proposal executionId key (db.nextId + 1)
  let overallSuccess := sub.2
  let execution : ExecutionRow :=
    { id := executionId, campaignId := proposal.campaignId
      platform := platform
      status := if overallSuccess then "completed" else "failed"
      idempotencyKey := key }
  let db' := { db with
    executions := db.executions ++ [execution]
    executionActions := db.executionActions ++ sub.1
    proposals := setProposal db.proposals proposal.id (fun p =>
      { p with status := if overallSuccess then "executed" else "failed"
               executedAt := some now
               executionResult := some
                 { executionId := some executionId
                   success := some overallSuccess } })
    nextId := db.nextId + 1 + sub.1.length }
  ({ success := overallSuccess, proposalId := proposal.id
     executionId := some executionId
     error := if overallSuccess then none
              else some "One or more platform operations failed" }, db')

/-- The executor's idempotency key for a proposal. -/
def proposalIdempotencyKey (pid : ℕ) : String := "opt-proposal-" ++ toString pid

/-- `ActionExecutor.execute_proposal`: status gate, idempotent replay,
dispatch by action type. -/
def executeProposal (db : Db) (pid : ℕ) (force : Bool) (now : ℚ) :
    ExecutionRecord × Db :=
  match db.proposals.find? (fun p => p.id == pid) with
  | none => ({ success := false, proposalId := pid
               error := some "Proposal not found" }, db)
  | some proposal =>
    if !force && !(proposal.status == "approved" || proposal.status == "auto_approved") then
      ({ success := false, proposalId := pid
         error := some ("Proposal status must be approved or auto_approved, got " ++ proposal.status) }, db)
    else
      let key := proposalIdempotencyKey pid
      match db.executions.find? (fun e => e.idempotencyKey == key) with
      | some existing =>
        ({ success := true, proposalId := pid
           executionId := some existing.id }, db)
      | none =>
        if proposal.actionType == "creative_refresh" then
          executeAdvisory db proposal key now
        else if proposal.actionType == "budget_reallocation" ||
                proposal.actionType == "pause_channel" ||
                proposal.actionType == "resume_channel" then
          executePlatformAction db proposal key now
        else
          let msg := "Unknown action_type: " ++ proposal.actionType
          let db' := { db with proposals := setProposal db.proposals pid (fun p =>
            { p with status := "failed"
                     executionResult := some { error := some msg } }) }
          ({ success := false, proposalId := pid, error := some msg }, db')

/-- `BatchExecutionResult` counters. -/
structure BatchExecutionResult where
  total : ℕ := 0
  succeeded : ℕ := 0
  failed : ℕ := 0
deriving Repr, DecidableEq

/-- `ActionExecutor.execute_batch`: sequential, left to right. -/
def executeBatch (db : Db) (pids : List ℕ) (now : ℚ) :
    BatchExecutionResult × Db :=
  pids.foldl (fun st pid =>
    let (record, db') := executeProposal st.2 pid false now
    ({ st.1 with
       succeeded := st.1.succeeded + (if record.success then 1 else 0)
       failed := st.1.failed + (if record.success then 0 else 1) }, db'))
    ({ total := pids.length }, db)

/-! ### Outcome verifier (`verifier.py`) -/

/-- `VerificationResult`; the `details` dict is flattened into the
`idempotent` and `earliestVerification` fields the spec talks about. -/
structure VerificationResult where
  success : Bool
  proposalId : ℕ
  learningId : Option ℕ := none
  accuracyScore : Option ℚ := none
  error : Option String := none
  idempotent : Bool := false
  earliestVerification : Option ℚ := none
deriving Repr, DecidableEq

/-- `_collect_actual_impact` outcome: either the no-snapshots error marker
or the recomputed campaign KPIs. -/
structure ActualImpact where
  hasError : Bool
  campaignKpis : List (String × ℚ) := []
deriving Repr, DecidableEq

/-- `x is not None and x > 0` on an optional float. -/
def isPositive (o : Option ℚ) : Bool :=
  match o with
  | some v => v > 0
  | none => false

/-- `OutcomeVerifier._compute_accuracy_score`: deterministic, bounded,
4-decimal rounded; neutral 0.5 when actuals are missing. -/
def computeAccuracyScore (actionType : String) (actual : ActualImpact) : ℚ :=
  if actual.hasError then 1/2
  else
    let kpis := actual.campaignKpis
    if actionType = "budget_reallocation" then
      let roas := dictGet kpis "roas"
      let cpa := dictGet kpis "cpa"
      if isPositive roas then
        roundQ 4 (max 0 (min 1 (roas.getD 0 / 3)))
      else if isPositive cpa then
        roundQ 4 (max 0 (min 1 (30 / max (cpa.getD 0) 1)))
      else 1/2
    else if actionType = "creative_refresh" then
      let ctr := dictGet kpis "ctr"
      if isPositive ctr then
        roundQ 4 (max 0 (min 1 (ctr.getD 0 / (1/50))))
      else 1/2
    else 1/2

/-- `OutcomeVerifier._update_method_stats`: running-average update of
`stats_json`, with `dict.get` defaults for absent keys. -/
def updateMethodStats (stats : MethodStats) (accuracy : ℚ) (success : Bool)
    (now : ℚ) : MethodStats :=
  let total := stats.totalExecutions.getD 0 + 1
  let successful := stats.successfulExecutions.getD 0 + (if success then 1 else 0)
  let prevAvg := stats.avgAccuracy.getD 0
  let newAvg := (prevAvg * ((total : ℚ) - 1) + accuracy) / (total : ℚ)
  { totalExecutions := some total
    successfulExecutions := some successful
    avgAccuracy := some (roundQ 4 newAvg)
    lastVerifiedAt := some now }

/-- `OutcomeVerifier.verify_proposal`. -/
def verifyProposal (db : Db) (pid : ℕ) (now : ℚ)
    (verificationWindowHours : ℚ := verificationDelayHours) :
    VerificationResult × Db :=
  match db.proposals.find? (fun p => p.id == pid) with
  | none => ({ success := false, proposalId := pid
               error := some "Proposal not found" }, db)
  | some proposal =>
    if proposal.status ≠ "executed" ∨ proposal.executedAt = none then
      ({ success := false, proposalId := pid
         error := some ("Proposal must be executed to verify (status: " ++ proposal.status ++ ")") }, db)
    else
      let executedAt := proposal.executedAt.getD 0
      if now - executedAt < verificationWindowHours * 60 then
        ({ success := false, proposalId := pid
           error := some "pending"
           earliestVerification := some (executedAt + verificationWindowHours * 60) }, db)
      else
        match db.learnings.find? (fun l =>
          l.proposalId == pid && l.verificationStatus == "verified") with
        | some existing =>
          ({ success := true, proposalId := pid
             learningId := some existing.id
             accuracyScore :=
               -- `float(x) if x else None`: a falsy (absent or zero) score maps to None
               (match existing.accuracyScore with
                | some a => if a = 0 then none else some a
                | none => none)
             idempotent := true }, db)
        | none =>
          let cid := proposal.campaignId
          let snapshotCount := (db.snapshots.filter (fun s => s.campaignId == cid)).length
          let collected :=
            if snapshotCount = 0 then (ActualImpact.mk true [], db)
            else
              let rawMetrics := collectMetrics db.snapshots cid
              let kpiRows := kpiCompute cid rawMetrics none none
              (ActualImpact.mk false (campaignKpisOf kpiRows),
               { db with rawMetrics := db.rawMetrics ++ rawMetrics
                         derivedKpis := db.derivedKpis ++ kpiRows })
          let accuracy := computeAccuracyScore proposal.actionType collected.1
          let db1 := collected.2
          let learningId := db1.nextId
          let learning : LearningRow :=
            { id := learningId, campaignId := cid, proposalId := pid
              methodId := proposal.methodId
              accuracyScore := some accuracy
              verificationStatus := "verified", verifiedAt := some now }
          let db2 := { db1 with
            learnings := db1.learnings ++ [learning]
            nextId := learningId + 1
            methods := db1.methods.map (fun m =>
              if m.id == proposal.methodId then
                { m with stats := updateMethodStats m.stats accuracy (accuracy ≥ 1/2) now }
              else m) }
          ({ success := true, proposalId := pid
             learningId := some learningId
             accuracyScore := some accuracy }, db2)

/-- `BatchVerificationResult` counters. -/
structure BatchVerificationResult where
  total : ℕ := 0
  verified : ℕ := 0
  pending : ℕ := 0
  failed : ℕ := 0
deriving Repr, DecidableEq

/-- `OutcomeVerifier.verify_batch`: verify every executed proposal of the
campaign not older than the age window. -/
def verifyBatch (db : Db) (cid : ℕ) (now : ℚ) (maxAgeHours : ℚ := 48) :
    BatchVerificationResult × Db :=
  let cutoff := now - maxAgeHours * 60
  let candidates := db.proposals.filter (fun p =>
    p.campaignId == cid && p.status == "executed" && !p.executedAt.isNone)
  candidates.foldl (fun st p =>
    if p.executedAt.getD 0 < cutoff then st
    else
      let (vr, db') := verifyProposal st.2 p.id now
      (if vr.error = some "pending" then { st.1 with pending := st.1.pending + 1 }
       else if vr.success then { st.1 with verified := st.1.verified + 1 }
       else { st.1 with failed := st.1.failed + 1 }, db'))
    ({ total := candidates.length }, db)

/-! ### Optimization monitor (`monitor.py`) -/

/-- `MonitorRunResult` (phase summaries). -/
structure MonitorCycleResult where
  engineResult : EngineResult
  executionResult : Option BatchExecutionResult := none
  verificationResult : BatchVerificationResult
  status : String
  errors : List String := []
deriving Repr, DecidableEq

/-- `OptimizationMonitor.run_cycle`: observe→decide, act, verify, then one
`MonitorRun` audit row.  The model has no exceptions, so the trapped
engine-phase error branch cannot fire. -/
def runCycle (db : Db) (cid : ℕ) (now : ℚ) (today : ℤ) :
    MonitorCycleResult × Db :=
  let (engineResult, db1) := engineRun db cid now today
  let autoApprovedIds := (db1.proposals.filter (fun p =>
    p.campaignId == cid && p.status == "auto_approved" && p.executedAt.isNone)).map (·.id)
  let acted :=
    if autoApprovedIds.isEmpty then (none, db1)
    else
      let r := executeBatch db1 autoApprovedIds now
      (some r.1, r.2)
  let db2 := acted.2
  let (verificationResult, db3) := verifyBatch db2 cid now 48
  let errors :=
    match acted.1 with
    | some bx => if bx.failed > 0 then ["Execution phase failures"] else []
    | none => []
  let status :=
    if errors.isEmpty then "completed"
    else if engineResult.success then "partial" else "failed"
  let monitorRun : MonitorRunRow := { id := db3.nextId, campaignId := cid, status := status }
  let db4 := { db3 with monitorRuns := db3.monitorRuns ++ [monitorRun]
                        nextId := db3.nextId + 1 }
  ({ engineResult := engineResult
     executionResult := acted.1
     verificationResult := verificationResult
     status := status
     errors := errors }, db4)

/-- A sequence of verified accuracy scores folded through
`_update_method_stats`, starting from the lazily created method row's
empty `stats_json` (every `stats.get` falls back to its default). -/
def applyVerifications (scores : List ℚ) (now : ℚ) : MethodStats :=
  scores.foldl (fun st a => updateMethodStats st a (a ≥ 1/2) now) {}

/-- The spec's running-average recurrence written independently over
`(avg, total, successful)` triples:
`avg ← round₄((prev·(total−1) + score)/total)` with `total ← total+1` and
`successful` counting scores at or above 0.5. -/
def statsRecurrenceStep (st : ℚ × ℕ × ℕ) (a : ℚ) : ℚ × ℕ × ℕ :=
  (roundQ 4 ((st.1 * st.2.1 + a) / (st.2.1 + 1)), st.2.1 + 1,
   st.2.2 + (if a ≥ 1/2 then 1 else 0))

/-- The spec recurrence over a whole score sequence. -/
def statsRecurrence (scores : List ℚ) : ℚ × ℕ × ℕ :=
  scores.foldl statsRecurrenceStep (0, 0, 0)

/-- The projection of a `stats_json` dict the update reads and writes. -/
def statsProj (st : MethodStats) : ℚ × ℕ × ℕ :=
  (st.avgAccuracy.getD 0, st.totalExecutions.getD 0, st.successfulExecutions.getD 0)

/-! ### Concrete fixtures for closed-form evaluations -/

/-- A two-channel campaign store: `meta` converts at CPA 60 against a
campaign CPA of 20 (a 200% spike over the trend-free fallback), so the
CPA-Spike method fires one `budget_reallocation` evaluation. -/
def dbC7 : Db :=
  { campaigns := [{ id := 1 }]
    snapshots :=
      [ { campaignId := 1, channel := "meta", spend := 120, impressions := 0
          clicks := 0, conversions := 2, revenue := 0 }
      , { campaignId := 1, channel := "google", spend := 120, impressions := 0
          clicks := 0, conversions := 10, revenue := 0 } ]
    nextId := 10 }

/-- The proposal the engine persists on `dbC7` (confidence 0.95 calibrated
by the 2-snapshot sparsity factor 0.8 to 0.76, below the 0.85 threshold). -/
def c7Row : ProposalRow :=
  { id := 11
    campaignId := 1
    methodId := 10
    status := "pending"
    confidence := 19/25
    priority := 2
    actionType := "budget_reallocation"
    actionPayload :=
      { reductions := some [("meta", 24)]
        affectedChannels := some ["meta"]
        reductionPct := some (1/5) }
    guardrailChecks :=
      [ { passed := true, ruleName := "rate_limit" }
      , { passed := true, ruleName := "cooldown" }
      , { passed := true, ruleName := "budget_change_limit" }
      , { passed := true, ruleName := "minimum_channel_floor" } ]
    expiresAt := some 1440
    createdAt := 0 }

/-- Two channels whose measurement-layer efficiency indices are **1.2**
(`meta`) and **0.6** (`google`) — the spec's own example spread — with both
channel spends below the CPA-Spike floor. -/
def dbC2 : Db :=
  { campaigns := [{ id := 1 }]
    snapshots :=
      [ { campaignId := 1, channel := "meta", spend := 60, impressions := 0
          clicks := 0, conversions := 48, revenue := 0 }
      , { campaignId := 1, channel := "google", spend := 30, impressions := 0
          clicks := 0, conversions := 12, revenue := 0 } ]
    nextId := 10 }

/-- A method context whose channel KPI dicts carry `efficiency_index`
1.2 / 0.6, as the *measurement* layer (not the engine) would supply. -/
def ctxEff : MethodContext :=
  { campaignId := 1
    kpis := []
    trends := []
    channelData :=
      [ { channel := "meta", kpis := [("efficiency_index", 6/5)], totals := {} }
      , { channel := "google", kpis := [("efficiency_index", 3/5)], totals := {} } ]
    currentAllocations := [("meta", 3000), ("google", 2000)] }

/-- The proposal fields the engine's guardrails can observe across later
phases: primary key, campaign, action type and creation time.  Executor
and verifier updates never change them. -/
def proposalKey (p : ProposalRow) : ℕ × ℕ × String × ℚ :=
  (p.id, p.campaignId, p.actionType, p.createdAt)

/-- The CPA-spike store of `dbC7` plus one pre-existing
`budget_reallocation` proposal created at minute 0. -/
def dbC4 : Db :=
  { campaigns := [{ id := 1 }]
    snapshots :=
      [ { campaignId := 1, channel := "meta", spend := 120, impressions := 0
          clicks := 0, conversions := 2, revenue := 0 }
      , { campaignId := 1, channel := "google", spend := 120, impressions := 0
          clicks := 0, conversions := 10, revenue := 0 } ]
    proposals :=
      [ { id := 5, campaignId := 1, methodId := 3, status := "rejected"
          confidence := 1/2, priority := 5
          actionType := "budget_reallocation", createdAt := 0 } ]
    nextId := 10 }

/-! ## Theorems -/

/-- Rows of one KPI bucket always carry a non-zero denominator. -/
theorem kpiRowsFor_denominator_ne_zero (cid : ℕ) (channel : Option String)
    (t : Totals) (ws we : Option ℤ) (row : DerivedKPI)
    (hmem : row ∈ kpiRowsFor cid channel t ws we) :
    kpiDenominator row.inputMetrics row.kpiName ≠ 0 := by
  simp only [kpiRowsFor, List.mem_filterMap] at hmem
  obtain ⟨p, hp, hmatch⟩ := hmem
  simp only [calculateKpis, List.mem_cons, List.not_mem_nil, or_false] at hp
  simp only [Option.map_eq_some'] at hmatch
  obtain ⟨v, hv, hrow⟩ := hmatch
  rcases hp with h | h | h | h | h | h <;> subst h <;>
    simp only [safeDiv, ite_eq_iff, reduceCtorEq, and_false, false_or] at hv <;>
    (subst hrow; simp [kpiDenominator, hv.1])

/-- C5: every `DerivedKPI` row persisted by `KPICalculator.compute` has a
non-zero denominator (impressions for ctr/cpm, clicks for cvr/cpc,
conversions for cpa, spend for roas) among its `input_metrics`; KPIs whose
denominator aggregates to zero are omitted entirely. -/
theorem derivedKpi_denominator_ne_zero (cid : ℕ) (ms : List RawMetric)
    (ws we : Option ℤ) (row : DerivedKPI)
    (hmem : row ∈ kpiCompute cid ms ws we) :
    kpiDenominator row.inputMetrics row.kpiName ≠ 0 := by
  simp only [kpiCompute, List.mem_append, List.mem_flatMap] at hmem
  rcases hmem with ⟨ch, _, hrow⟩ | hrow
  · exact kpiRowsFor_denominator_ne_zero cid (some ch) (channelTotals ms ch) ws we row hrow
  · exact kpiRowsFor_denominator_ne_zero cid none (campaignTotals ms) ws we row hrow

set_option maxRecDepth 8000 in
/-- Witness for C5 at a concrete input: one snapshot-derived metric set with
zero conversions and zero revenue omits cpa/roas and keeps a ctr row whose
impressions denominator is non-zero. -/
theorem derivedKpi_denominator_ne_zero_witness :
    (⟨1, some "meta", "ctr", 1/20, none, none,
        ⟨100, 1000, 50, 0, 0⟩⟩ : DerivedKPI) ∈
      kpiCompute 1
        [ ⟨1, "meta", "spend", 100, none, none⟩
        , ⟨1, "meta", "impressions", 1000, none, none⟩
        , ⟨1, "meta", "clicks", 50, none, none⟩
        , ⟨1, "meta", "conversions", 0, none, none⟩
        , ⟨1, "meta", "revenue", 0, none, none⟩ ] none none ∧
    kpiDenominator (⟨100, 1000, 50, 0, 0⟩ : Totals) "ctr" ≠ 0 := by
  refine ⟨by with_unfolding_all decide, ?_⟩
  refine derivedKpi_denominator_ne_zero 1
    [ ⟨1, "meta", "spend", 100, none, none⟩
    , ⟨1, "meta", "impressions", 1000, none, none⟩
    , ⟨1, "meta", "clicks", 50, none, none⟩
    , ⟨1, "meta", "conversions", 0, none, none⟩
    , ⟨1, "meta", "revenue", 0, none, none⟩ ] none none
    ⟨1, some "meta", "ctr", 1/20, none, none, ⟨100, 1000, 50, 0, 0⟩⟩
    (by with_unfolding_all decide)

/-- C10: every evaluation the CPA-Spike method emits keeps its proposed
budgets under the `reductions` payload key and leaves `new_allocations`
unset, so the engine's budget-change-limit and minimum-channel-floor
guardrails (which read only `new_allocations`) pass vacuously for it,
whatever the proposed cut and whatever the thresholds. -/
theorem cpaSpike_guardrails_vacuous (ctx : MethodContext)
    (e : MethodEvaluation) (h : cpaSpikeEvaluate ctx = some e) :
    e.actionType = "budget_reallocation" ∧
    e.actionPayload.newAllocations = none ∧
    e.actionPayload.reductions ≠ none ∧
    ∀ (current : List (String × ℚ)) (maxPct floorPct : ℚ),
      (checkBudgetChangeLimit current e.actionPayload.newAllocations maxPct).passed = true ∧
      (checkMinimumChannelFloor e.actionPayload.newAllocations floorPct).passed = true := by
  unfold cpaSpikeEvaluate at h
  dsimp only [] at h
  split at h
  · exact absurd h (by simp)
  · split at h
    · exact absurd h (by simp)
    · split at h
      · exact absurd h (by simp)
      · obtain rfl := Option.some.inj h
        exact ⟨rfl, rfl, by simp, fun current maxPct floorPct =>
          ⟨rfl, rfl⟩⟩

set_option maxRecDepth 8000 in
/-- Witness for C10: a channel whose CPA doubled against the campaign CPA
makes CPA-Spike fire; the theorem then yields vacuous passes of both
allocation guardrails at the default thresholds. -/
theorem cpaSpike_guardrails_vacuous_witness :
    cpaSpikeEvaluate
      { campaignId := 1
        kpis := [("cpa", 25)]
        trends := []
        channelData := [⟨"meta", [("cpa", 50)], { spend := 3000 }⟩]
        currentAllocations := [("meta", 3000)] } =
      some
        { shouldFire := true
          confidence := 19/20
          priority := 2
          actionType := "budget_reallocation"
          actionPayload :=
            { reductions := some [("meta", 600)]
              affectedChannels := some ["meta"]
              reductionPct := some (1/5) } } ∧
    (checkBudgetChangeLimit [("meta", 3000)] none maxBudgetChangePct).passed = true ∧
    (checkMinimumChannelFloor none minChannelFloorPct).passed = true := by
  have h : cpaSpikeEvaluate
      { campaignId := 1
        kpis := [("cpa", 25)]
        trends := []
        channelData := [⟨"meta", [("cpa", 50)], { spend := 3000 }⟩]
        currentAllocations := [("meta", 3000)] } =
      some
        { shouldFire := true
          confidence := 19/20
          priority := 2
          actionType := "budget_reallocation"
          actionPayload :=
            { reductions := some [("meta", 600)]
              affectedChannels := some ["meta"]
              reductionPct := some (1/5) } } := by
    with_unfolding_all decide
  have hmain := cpaSpike_guardrails_vacuous _ _ h
  exact ⟨h, (hmain.2.2.2 [("meta", 3000)] maxBudgetChangePct minChannelFloorPct).1,
    (hmain.2.2.2 [("meta", 3000)] maxBudgetChangePct minChannelFloorPct).2⟩

/-- C9: when the campaign exists but has no channel snapshots, the engine
run fails with the "No channel snapshots" error, mutates nothing and in
particular creates no proposals. -/
theorem engineRun_no_snapshots (db : Db) (cid : ℕ) (now : ℚ) (today : ℤ)
    (c : CampaignRow)
    (hc : db.campaigns.find? (fun q => q.id == cid) = some c)
    (hs : db.snapshots.filter (fun s => s.campaignId == cid) = []) :
    (engineRun db cid now today).1.success = false ∧
    "No channel snapshots available for this campaign" ∈
      (engineRun db cid now today).1.errors ∧
    (engineRun db cid now today).2 = db := by
  unfold engineRun
  simp [hc, hs]

/-- Witness for C9: one registered campaign, an empty snapshot table. -/
theorem engineRun_no_snapshots_witness :
    (engineRun { campaigns := [{ id := 1 }] } 1 0 0).1.success = false ∧
    "No channel snapshots available for this campaign" ∈
      (engineRun { campaigns := [{ id := 1 }] } 1 0 0).1.errors ∧
    (engineRun { campaigns := [{ id := 1 }] } 1 0 0).2 =
      { campaigns := [{ id := 1 }] } :=
  engineRun_no_snapshots { campaigns := [{ id := 1 }] } 1 0 0 { id := 1 }
    (by rfl) (by rfl)

/-- C8: verifying an executed proposal before the verification window has
elapsed returns the `pending` failure with the `earliest_verification`
hint, writes no learning row and leaves the whole store (proposal and
method stats included) unchanged. -/
theorem verifyProposal_window_pending (db : Db) (pid : ℕ) (now w e : ℚ)
    (p : ProposalRow)
    (hp : db.proposals.find? (fun q => q.id == pid) = some p)
    (hstatus : p.status = "executed")
    (hexec : p.executedAt = some e)
    (hwin : now - e < w * 60) :
    verifyProposal db pid now w =
      ({ success := false, proposalId := pid, error := some "pending"
         earliestVerification := some (e + w * 60) }, db) := by
  unfold verifyProposal
  simp [hp, hstatus, hexec, hwin]

/-- Witness for C8: a proposal executed at minute 0 verified one hour
later against the default 24-hour window. -/
theorem verifyProposal_window_pending_witness :
    verifyProposal
      { proposals := [{ id := 8, campaignId := 1, methodId := 3
                        status := "executed", confidence := 9/10, priority := 5
                        actionType := "budget_reallocation"
                        executedAt := some 0, createdAt := 0 }] }
      8 60 24 =
    ({ success := false, proposalId := 8, error := some "pending"
       earliestVerification := some (0 + 24 * 60) },
     { proposals := [{ id := 8, campaignId := 1, methodId := 3
                       status := "executed", confidence := 9/10, priority := 5
                       actionType := "budget_reallocation"
                       executedAt := some 0, createdAt := 0 }] }) := by
  have h := verifyProposal_window_pending
    { proposals := [{ id := 8, campaignId := 1, methodId := 3
                      status := "executed", confidence := 9/10, priority := 5
                      actionType := "budget_reallocation"
                      executedAt := some 0, createdAt := 0 }] }
    8 60 24 0
    { id := 8, campaignId := 1, methodId := 3
      status := "executed", confidence := 9/10, priority := 5
      actionType := "budget_reallocation"
      executedAt := some 0, createdAt := 0 }
    (by rfl) rfl rfl (by norm_num)
  exact h

/-- C6: verifying a proposal that already has a verified learning record
returns success carrying that first record's id with `idempotent=true`,
and leaves the store unchanged — no second verified learning row is ever
written for the proposal. -/
theorem verifyProposal_idempotent (db : Db) (pid : ℕ) (now w e : ℚ)
    (p : ProposalRow) (l : LearningRow)
    (hp : db.proposals.find? (fun q => q.id == pid) = some p)
    (hstatus : p.status = "executed")
    (hexec : p.executedAt = some e)
    (hwin : ¬(now - e < w * 60))
    (hl : db.learnings.find? (fun q =>
      q.proposalId == pid && q.verificationStatus == "verified") = some l) :
    verifyProposal db pid now w =
      ({ success := true, proposalId := pid, learningId := some l.id
         accuracyScore :=
           (match l.accuracyScore with
            | some a => if a = 0 then none else some a
            | none => none)
         idempotent := true }, db) := by
  unfold verifyProposal
  simp [hp, hstatus, hexec, hwin, hl]

set_option maxRecDepth 8000 in
/-- Witness for C6: a verified learning row for proposal 8 is returned
as-is by a later verification call, with no new row. -/
theorem verifyProposal_idempotent_witness :
    verifyProposal
      { proposals := [{ id := 8, campaignId := 1, methodId := 3
                        status := "executed", confidence := 9/10, priority := 5
                        actionType := "budget_reallocation"
                        executedAt := some 0, createdAt := 0 }]
        learnings := [{ id := 20, campaignId := 1, proposalId := 8, methodId := 3
                        accuracyScore := some (9667/10000)
                        verificationStatus := "verified", verifiedAt := some 90000 }]
        nextId := 21 }
      8 1560 24 =
    ({ success := true, proposalId := 8, learningId := some 20
       accuracyScore := some (9667/10000), idempotent := true },
     { proposals := [{ id := 8, campaignId := 1, methodId := 3
                       status := "executed", confidence := 9/10, priority := 5
                       actionType := "budget_reallocation"
                       executedAt := some 0, createdAt := 0 }]
       learnings := [{ id := 20, campaignId := 1, proposalId := 8, methodId := 3
                       accuracyScore := some (9667/10000)
                       verificationStatus := "verified", verifiedAt := some 90000 }]
       nextId := 21 }) := by
  have h := verifyProposal_idempotent
    { proposals := [{ id := 8, campaignId := 1, methodId := 3
                      status := "executed", confidence := 9/10, priority := 5
                      actionType := "budget_reallocation"
                      executedAt := some 0, createdAt := 0 }]
      learnings := [{ id := 20, campaignId := 1, proposalId := 8, methodId := 3
                      accuracyScore := some (9667/10000)
                      verificationStatus := "verified", verifiedAt := some 90000 }]
      nextId := 21 }
    8 1560 24 0
    { id := 8, campaignId := 1, methodId := 3
      status := "executed", confidence := 9/10, priority := 5
      actionType := "budget_reallocation"
      executedAt := some 0, createdAt := 0 }
    { id := 20, campaignId := 1, proposalId := 8, methodId := 3
      accuracyScore := some (9667/10000)
      verificationStatus := "verified", verifiedAt := some 90000 }
    (by rfl) rfl rfl (by norm_num)
    (by rfl)
  rw [h]
  norm_num

/-! ### C3: method-stats running average -/

/-- `roundQ` keeps non-negative values non-negative. -/
theorem roundQ_nonneg (n : ℕ) (x : ℚ) (hx : 0 ≤ x) : 0 ≤ roundQ n x := by
  unfold roundQ
  have hy : (0 : ℚ) ≤ x * 10 ^ n := by positivity
  have hf : (0 : ℤ) ≤ ⌊x * 10 ^ n⌋ := Int.floor_nonneg.mpr hy
  have hpow : (0 : ℚ) < 10 ^ n := by positivity
  have hf1 : (0 : ℤ) ≤ ⌊x * 10 ^ n⌋ + 1 := by omega
  apply div_nonneg _ hpow.le
  split_ifs
  · exact_mod_cast hf
  · exact_mod_cast hf1
  · exact_mod_cast hf
  · exact_mod_cast hf1

/-- `roundQ` of a value at most 1 stays at most 1. -/
theorem roundQ_le_one (n : ℕ) (x : ℚ) (hx : x ≤ 1) : roundQ n x ≤ 1 := by
  unfold roundQ
  have hpow : (0 : ℚ) < 10 ^ n := by positivity
  have hy : x * 10 ^ n ≤ 10 ^ n := by
    calc x * 10 ^ n ≤ 1 * 10 ^ n := mul_le_mul_of_nonneg_right hx hpow.le
    _ = 10 ^ n := one_mul _
  have hfle : (⌊x * 10 ^ n⌋ : ℚ) ≤ 10 ^ n := le_trans (Int.floor_le _) hy
  have hdq : (0 : ℚ) < ((x * 10 ^ n).den : ℚ) := by
    exact_mod_cast (x * 10 ^ n).den_pos
  have hdne : ((x * 10 ^ n).den : ℚ) ≠ 0 := ne_of_gt hdq
  have hnum : ((x * 10 ^ n).num : ℚ) = (x * 10 ^ n) * ((x * 10 ^ n).den : ℚ) := by
    have h0 := Rat.num_div_den (x * 10 ^ n)
    rw [div_eq_iff hdne] at h0
    exact h0
  have hfrac : x * 10 ^ n - (⌊x * 10 ^ n⌋ : ℚ) =
      (((x * 10 ^ n).num - ⌊x * 10 ^ n⌋ * (x * 10 ^ n).den : ℤ) : ℚ) /
        ((x * 10 ^ n).den : ℚ) := by
    rw [eq_div_iff (ne_of_gt hdq)]
    push_cast
    rw [hnum]
    ring
  have htop : ∀ hf2 : (⌊x * 10 ^ n⌋ : ℚ) < 10 ^ n,
      ((⌊x * 10 ^ n⌋ + 1 : ℤ) : ℚ) ≤ 10 ^ n := by
    intro hf2
    have hfq : (⌊x * 10 ^ n⌋ : ℚ) < (((10 : ℤ) ^ n : ℤ) : ℚ) := by push_cast; linarith
    have hfz : ⌊x * 10 ^ n⌋ < (10 : ℤ) ^ n := by exact_mod_cast hfq
    have h4 : ((⌊x * 10 ^ n⌋ + 1 : ℤ) : ℚ) ≤ (((10 : ℤ) ^ n : ℤ) : ℚ) := by
      exact_mod_cast hfz
    push_cast at h4 ⊢
    linarith
  rw [div_le_one hpow]
  split_ifs with h1 h2 h3
  · exact hfle
  · -- fractional part above one half, so the floor is strictly below the top
    have h2q : ((x * 10 ^ n).den : ℚ) <
        2 * (((x * 10 ^ n).num : ℚ) - (⌊x * 10 ^ n⌋ : ℚ) * ((x * 10 ^ n).den : ℚ)) := by
      exact_mod_cast h2
    have hhalf : (1 : ℚ)/2 < x * 10 ^ n - (⌊x * 10 ^ n⌋ : ℚ) := by
      rw [hfrac, lt_div_iff₀ hdq]
      push_cast
      linarith
    exact htop (by linarith)
  · exact hfle
  · -- exact tie at an odd floor: the floor is strictly below the top
    have heq : 2 * (((x * 10 ^ n).num : ℚ) - (⌊x * 10 ^ n⌋ : ℚ) * ((x * 10 ^ n).den : ℚ)) =
        ((x * 10 ^ n).den : ℚ) := by
      exact_mod_cast le_antisymm (not_lt.mp h2) (not_lt.mp h1)
    have hhalf : x * 10 ^ n - (⌊x * 10 ^ n⌋ : ℚ) = 1/2 := by
      rw [hfrac, div_eq_iff (ne_of_gt hdq)]
      push_cast
      linarith
    exact htop (by linarith)

/-- One `_update_method_stats` call implements exactly one step of the
spec recurrence on the projected state. -/
theorem updateMethodStats_step (st : MethodStats) (a : ℚ) (now : ℚ) :
    statsProj (updateMethodStats st a (a ≥ 1/2) now) =
      statsRecurrenceStep (statsProj st) a := by
  unfold updateMethodStats statsRecurrenceStep statsProj
  simp only [Option.getD_some]
  refine Prod.ext ?_ (Prod.ext ?_ ?_)
  · simp only []
    congr 1
    push_cast
    ring
  · simp
  · simp [add_comm]

/-- Folding the source update equals folding the spec recurrence. -/
theorem applyVerifications_foldl (scores : List ℚ) (now : ℚ) :
    ∀ st : MethodStats,
      statsProj (scores.foldl (fun s a => updateMethodStats s a (a ≥ 1/2) now) st) =
        scores.foldl statsRecurrenceStep (statsProj st) := by
  induction scores with
  | nil => intro st; rfl
  | cons a rest ih =>
    intro st
    simp only [List.foldl_cons]
    rw [ih, updateMethodStats_step]

/-- The spec recurrence keeps the running average inside `[0,1]` when every
score lies in `[0,1]`. -/
theorem statsRecurrence_avg_bounded (scores : List ℚ)
    (hb : ∀ a ∈ scores, 0 ≤ a ∧ a ≤ 1) :
    ∀ st : ℚ × ℕ × ℕ, 0 ≤ st.1 → st.1 ≤ 1 →
      0 ≤ (scores.foldl statsRecurrenceStep st).1 ∧
      (scores.foldl statsRecurrenceStep st).1 ≤ 1 := by
  induction scores with
  | nil => exact fun st h0 h1 => ⟨h0, h1⟩
  | cons a rest ih =>
    intro st h0 h1
    have ha := hb a (List.mem_cons_self a rest)
    have hb' : ∀ x ∈ rest, 0 ≤ x ∧ x ≤ 1 := fun x hx => hb x (List.mem_cons_of_mem a hx)
    have hn : (0 : ℚ) < (st.2.1 : ℚ) + 1 := by positivity
    have hval0 : 0 ≤ (st.1 * st.2.1 + a) / (st.2.1 + 1) := by
      apply div_nonneg _ hn.le
      have : (0 : ℚ) ≤ st.1 * st.2.1 := mul_nonneg h0 (by positivity)
      linarith [ha.1]
    have hval1 : (st.1 * st.2.1 + a) / (st.2.1 + 1) ≤ 1 := by
      rw [div_le_one hn]
      have : st.1 * st.2.1 ≤ (st.2.1 : ℚ) := by
        calc st.1 * st.2.1 ≤ 1 * st.2.1 := mul_le_mul_of_nonneg_right h1 (by positivity)
        _ = (st.2.1 : ℚ) := one_mul _
      linarith [ha.2]
    have ih' := ih hb' (statsRecurrenceStep st a)
      (roundQ_nonneg 4 _ hval0) (roundQ_le_one 4 _ hval1)
    simpa using ih'

/-- C3 (amended): after any sequence of verifications starting from empty
stats, `avg_accuracy` stays in `[0,1]`, `total_executions` counts the
verifications, `successful_executions` counts scores ≥ 0.5, and
`avg_accuracy` equals the spec's running-average recurrence *with its
4-decimal rounding applied at every step* — which is in general not the
exact arithmetic mean of the scores (see the counterexample). -/
theorem methodStats_running_average (scores : List ℚ) (now : ℚ)
    (hb : ∀ a ∈ scores, 0 ≤ a ∧ a ≤ 1) :
    (applyVerifications scores now).avgAccuracy.getD 0 = (statsRecurrence scores).1 ∧
    (applyVerifications scores now).totalExecutions.getD 0 = scores.length ∧
    (applyVerifications scores now).successfulExecutions.getD 0 =
      (scores.filter (fun a => a ≥ 1/2)).length ∧
    0 ≤ (applyVerifications scores now).avgAccuracy.getD 0 ∧
    (applyVerifications scores now).avgAccuracy.getD 0 ≤ 1 := by
  have hfold := applyVerifications_foldl scores now {}
  have hproj : statsProj (applyVerifications scores now) = statsRecurrence scores := hfold
  have htotal : ∀ (sc : List ℚ) (st : ℚ × ℕ × ℕ),
      (sc.foldl statsRecurrenceStep st).2.1 = st.2.1 + sc.length := by
    intro sc
    induction sc with
    | nil => simp
    | cons a rest ih =>
      intro st
      simp only [List.foldl_cons, ih, statsRecurrenceStep, List.length_cons]
      omega
  have hsucc : ∀ (sc : List ℚ) (st : ℚ × ℕ × ℕ),
      (sc.foldl statsRecurrenceStep st).2.2 =
        st.2.2 + (sc.filter (fun a => a ≥ 1/2)).length := by
    intro sc
    induction sc with
    | nil => simp
    | cons a rest ih =>
      intro st
      by_cases h : a ≥ 1/2
      · rw [List.foldl_cons, ih, List.filter_cons_of_pos (by simpa using h)]
        simp only [statsRecurrenceStep, if_pos h, List.length_cons]
        omega
      · rw [List.foldl_cons, ih, List.filter_cons_of_neg (by simpa using h)]
        simp only [statsRecurrenceStep, if_neg h]
        omega
  have hbound := statsRecurrence_avg_bounded scores hb (0, 0, 0) le_rfl zero_le_one
  have h1 : (applyVerifications scores now).avgAccuracy.getD 0 = (statsRecurrence scores).1 :=
    congrArg Prod.fst hproj
  have h2 : (applyVerifications scores now).totalExecutions.getD 0 = scores.length := by
    have h := congrArg (fun p => p.2.1) hproj
    simp only [statsProj] at h
    rw [h, statsRecurrence, htotal scores (0, 0, 0)]
    simp
  have h3 : (applyVerifications scores now).successfulExecutions.getD 0 =
      (scores.filter (fun a => a ≥ 1/2)).length := by
    have h := congrArg (fun p => p.2.2) hproj
    simp only [statsProj] at h
    rw [h, statsRecurrence, hsucc scores (0, 0, 0)]
    simp
  exact ⟨h1, h2, h3, h1 ▸ hbound.1, h1 ▸ hbound.2⟩

/-- Counterexample for C3 as stated: scores 0.5, 0.75, 0.75 leave the
stored `avg_accuracy` at 0.6667 (rounded at each step), while the exact
arithmetic mean of the verified scores is 2/3 — the two differ. -/
theorem methodStats_mean_counterexample :
    (applyVerifications [1/2, 3/4, 3/4] 0).avgAccuracy = some (6667/10000) ∧
    ((1/2 : ℚ) + 3/4 + 3/4) / 3 = 2/3 ∧
    (6667/10000 : ℚ) ≠ 2/3 := by
  refine ⟨?_, by norm_num, by norm_num⟩
  norm_num [applyVerifications, updateMethodStats, roundQ, Rat.floor_def]

/-! ### C1: executor idempotency -/

/-- `setProposal` only rewrites fields of matching rows; `find?`-by-id
lookups stay `isSome` when the updater preserves `id`. -/
theorem setProposal_find?_isSome (ps : List ProposalRow) (pid j : ℕ)
    (f : ProposalRow → ProposalRow) (hf : ∀ p, (f p).id = p.id) :
    ((setProposal ps pid f).find? (fun q => q.id == j)).isSome =
      (ps.find? (fun q => q.id == j)).isSome := by
  unfold setProposal
  rw [List.find?_map]
  have hpred : ((fun q => q.id == j) ∘ fun p => if p.id == pid then f p else p) =
      (fun p : ProposalRow => p.id == j) := by
    funext p
    by_cases h : p.id = pid <;> simp [h, hf]
  rw [hpred]
  cases ps.find? (fun q => q.id == j) <;> simp

/-- A successful `execute_proposal` call leaves the store with an
`Execution` row under the proposal's idempotency key, reports that row's
id, and keeps the proposal row findable. -/
theorem executeProposal_success_state (db : Db) (pid : ℕ) (force : Bool) (t : ℚ)
    (h : (executeProposal db pid force t).1.success = true) :
    ∃ ex : ExecutionRow,
      (executeProposal db pid force t).2.executions.find? (fun e =>
        e.idempotencyKey == proposalIdempotencyKey pid) = some ex ∧
      (executeProposal db pid force t).1.executionId = some ex.id ∧
      ((executeProposal db pid force t).2.proposals.find? (fun q =>
        q.id == pid)).isSome = true := by
  unfold executeProposal at h ⊢
  cases hfp : db.proposals.find? (fun p => p.id == pid) with
  | none => rw [hfp] at h; simp at h
  | some proposal =>
    rw [hfp] at h
    dsimp only at h ⊢
    by_cases hgate :
        (!force && !(proposal.status == "approved" || proposal.status == "auto_approved")) = true
    · rw [if_pos hgate] at h
      simp at h
    · rw [if_neg hgate] at h ⊢
      cases hex : db.executions.find? (fun e =>
          e.idempotencyKey == proposalIdempotencyKey pid) with
      | some existing =>
        rw [hex] at h
        dsimp only at h ⊢
        exact ⟨existing, hex, rfl, by simp [hfp]⟩
      | none =>
        rw [hex] at h
        dsimp only at h ⊢
        by_cases hadv : (proposal.actionType == "creative_refresh") = true
        · rw [if_pos hadv] at h ⊢
          refine ⟨⟨db.nextId, proposal.campaignId, "advisory", "completed",
              proposalIdempotencyKey pid⟩, ?_, ?_, ?_⟩
          · unfold executeAdvisory
            dsimp only
            rw [List.find?_append, hex]
            simp
          · rfl
          · unfold executeAdvisory
            dsimp only
            rw [setProposal_find?_isSome]
            · simp [hfp]
            · intro p
              rfl
        · rw [if_neg hadv] at h ⊢
          by_cases hplat : (proposal.actionType == "budget_reallocation" ||
              proposal.actionType == "pause_channel" ||
              proposal.actionType == "resume_channel") = true
          · rw [if_pos hplat] at h ⊢
            refine ⟨⟨db.nextId, proposal.campaignId,
                resolvePlatform proposal.actionPayload,
                if (subActionsFor proposal db.nextId (proposalIdempotencyKey pid)
                    (db.nextId + 1)).2 then "completed" else "failed",
                proposalIdempotencyKey pid⟩, ?_, ?_, ?_⟩
            · unfold executePlatformAction
              dsimp only
              rw [List.find?_append, hex]
              simp
            · rfl
            · unfold executePlatformAction
              dsimp only
              rw [setProposal_find?_isSome]
              · simp [hfp]
              · intro p
                rfl
          · rw [if_neg hplat] at h
            simp at h

/-- C1 (amended): once a call to `execute_proposal` has succeeded, a second
call with `force=true` replays it — success with the same `execution_id`
and a completely unchanged store (no new Execution or ExecutionAction
rows).  A second call with `force=false` also never creates rows: it is
either rejected by the status gate (which runs *before* the idempotency
lookup) or replayed, leaving the store unchanged either way. -/
theorem executeProposal_second_call (db : Db) (pid : ℕ) (force1 : Bool) (t1 t2 : ℚ)
    (h1 : (executeProposal db pid force1 t1).1.success = true) :
    (executeProposal (executeProposal db pid force1 t1).2 pid true t2).1.success = true ∧
    (executeProposal (executeProposal db pid force1 t1).2 pid true t2).1.executionId =
      (executeProposal db pid force1 t1).1.executionId ∧
    (executeProposal (executeProposal db pid force1 t1).2 pid true t2).2 =
      (executeProposal db pid force1 t1).2 ∧
    (executeProposal (executeProposal db pid force1 t1).2 pid false t2).2 =
      (executeProposal db pid force1 t1).2 := by
  obtain ⟨ex, hex, hid, hps⟩ := executeProposal_success_state db pid force1 t1 h1
  obtain ⟨q, hq⟩ := Option.isSome_iff_exists.mp hps
  set db1 := (executeProposal db pid force1 t1).2 with hdb1
  have htrue :
      executeProposal db1 pid true t2 =
        ({ success := true, proposalId := pid, executionId := some ex.id },
         db1) := by
    unfold executeProposal
    rw [hq]
    dsimp only
    rw [if_neg (by simp : ¬((!true &&
      !(q.status == "approved" || q.status == "auto_approved")) = true)), hex]
  have hfalse :
      (executeProposal db1 pid false t2).2 = db1 := by
    unfold executeProposal
    rw [hq]
    dsimp only
    by_cases hgate :
        (!false && !(q.status == "approved" || q.status == "auto_approved")) = true
    · rw [if_pos hgate]
    · rw [if_neg hgate, hex]
  refine ⟨by rw [htrue], by rw [htrue, hid], by rw [htrue], hfalse⟩

/-- Counterexample for C1 as stated: an approved advisory proposal is
executed once (success); the second call with `force=false` hits the
status gate — the proposal is now `executed` — and returns failure, not
the replayed success the claim promises. -/
theorem executeProposal_replay_counterexample :
    (executeProposal
      { campaigns := [{ id := 1 }]
        proposals := [{ id := 7, campaignId := 1, methodId := 3
                        status := "approved", confidence := 9/10, priority := 5
                        actionType := "creative_refresh", createdAt := 0 }]
        nextId := 10 } 7 false 5).1.success = true ∧
    (executeProposal
      (executeProposal
        { campaigns := [{ id := 1 }]
          proposals := [{ id := 7, campaignId := 1, methodId := 3
                          status := "approved", confidence := 9/10, priority := 5
                          actionType := "creative_refresh", createdAt := 0 }]
          nextId := 10 } 7 false 5).2 7 false 6).1.success = false := by
  refine ⟨by with_unfolding_all decide, by with_unfolding_all decide⟩

set_option maxRecDepth 4000 in
/-- Witness for C1 (amended): the same advisory proposal, second call with
`force=true`, replays the first execution id and adds no rows. -/
theorem executeProposal_second_call_witness :
    (executeProposal
      (executeProposal
        { campaigns := [{ id := 1 }]
          proposals := [{ id := 7, campaignId := 1, methodId := 3
                          status := "approved", confidence := 9/10, priority := 5
                          actionType := "creative_refresh", createdAt := 0 }]
          nextId := 10 } 7 false 5).2 7 true 6).1.executionId =
      (executeProposal
        { campaigns := [{ id := 1 }]
          proposals := [{ id := 7, campaignId := 1, methodId := 3
                          status := "approved", confidence := 9/10, priority := 5
                          actionType := "creative_refresh", createdAt := 0 }]
          nextId := 10 } 7 false 5).1.executionId ∧
    (executeProposal
      (executeProposal
        { campaigns := [{ id := 1 }]
          proposals := [{ id := 7, campaignId := 1, methodId := 3
                          status := "approved", confidence := 9/10, priority := 5
                          actionType := "creative_refresh", createdAt := 0 }]
          nextId := 10 } 7 false 5).2 7 true 6).2 =
      (executeProposal
        { campaigns := [{ id := 1 }]
          proposals := [{ id := 7, campaignId := 1, methodId := 3
                          status := "approved", confidence := 9/10, priority := 5
                          actionType := "creative_refresh", createdAt := 0 }]
          nextId := 10 } 7 false 5).2 := by
  have h := executeProposal_second_call
    { campaigns := [{ id := 1 }]
      proposals := [{ id := 7, campaignId := 1, methodId := 3
                      status := "approved", confidence := 9/10, priority := 5
                      actionType := "creative_refresh", createdAt := 0 }]
      nextId := 10 } 7 false 5 6 (by with_unfolding_all decide)
  exact ⟨h.2.1, h.2.2.1⟩

/-- Witness for C3 (amended) at the same concrete scores. -/
theorem methodStats_running_average_witness :
    (applyVerifications [1/2, 3/4, 3/4] 0).avgAccuracy.getD 0 =
      (statsRecurrence [1/2, 3/4, 3/4]).1 ∧
    (applyVerifications [1/2, 3/4, 3/4] 0).totalExecutions.getD 0 = 3 ∧
    0 ≤ (applyVerifications [1/2, 3/4, 3/4] 0).avgAccuracy.getD 0 ∧
    (applyVerifications [1/2, 3/4, 3/4] 0).avgAccuracy.getD 0 ≤ 1 := by
  have h := methodStats_running_average [1/2, 3/4, 3/4] 0
    (by intro a ha; fin_cases ha <;> norm_num)
  exact ⟨h.1, h.2.1, h.2.2.2.1, h.2.2.2.2⟩


/-! ### C7: confidence routing -/

/-- Routing dichotomy for one proposal: auto-approval exactly at the
threshold, stamped by the engine; otherwise left pending. -/
theorem routeProposal_cases (now : ℚ) (p : ProposalRow) :
    ((routeProposal now p).status = "auto_approved" ↔
      (routeProposal now p).confidence ≥ autoApproveThreshold) ∧
    ((routeProposal now p).status = "auto_approved" →
      (routeProposal now p).approvedBy = some "engine" ∧
      (routeProposal now p).approvedAt = some now) ∧
    ((routeProposal now p).status = "auto_approved" ∨
      (routeProposal now p).status = "pending") := by
  unfold routeProposal
  by_cases hc : p.confidence ≥ autoApproveThreshold
  · rw [if_pos hc]
    exact ⟨⟨fun _ => hc, fun _ => rfl⟩, fun _ => ⟨rfl, rfl⟩, Or.inl rfl⟩
  · rw [if_neg hc]
    refine ⟨⟨fun h => ?_, fun h => absurd h hc⟩, fun h => ?_, Or.inr rfl⟩ <;>
      simp at h

/-- C7: every proposal persisted by an engine run leaves routing with
status `auto_approved` — and then `approved_by = "engine"` and
`approved_at = now` — if and only if its calibrated confidence is at
least the auto-approve threshold (default 0.85); otherwise its status is
`pending`. -/
theorem engineRun_routing (db : Db) (cid : ℕ) (now : ℚ) (today : ℤ) :
    ∀ p ∈ (engineRun db cid now today).2.proposals.drop db.proposals.length,
      (p.status = "auto_approved" ↔ p.confidence ≥ autoApproveThreshold) ∧
      (p.status = "auto_approved" →
        p.approvedBy = some "engine" ∧ p.approvedAt = some now) ∧
      (p.status = "auto_approved" ∨ p.status = "pending") := by
  intro p hp
  unfold engineRun at hp
  split at hp
  · rw [List.drop_length] at hp
    exact absurd hp (List.not_mem_nil p)
  · dsimp only at hp
    split at hp
    · rw [List.drop_length] at hp
      exact absurd hp (List.not_mem_nil p)
    · split at hp
      · rw [List.drop_length] at hp
        exact absurd hp (List.not_mem_nil p)
      · rw [List.drop_left] at hp
        rw [List.mem_map] at hp
        obtain ⟨q, hq, rfl⟩ := hp
        exact routeProposal_cases now _

set_option maxRecDepth 8000 in
/-- Witness for C7: the CPA-spike proposal created on the concrete store
`dbC7`, with calibrated confidence 0.76 below the threshold, routed to
`pending`. -/
theorem engineRun_routing_witness :
    c7Row ∈ (engineRun dbC7 1 0 14).2.proposals.drop dbC7.proposals.length ∧
    ((c7Row.status = "auto_approved" ↔ c7Row.confidence ≥ autoApproveThreshold) ∧
     (c7Row.status = "auto_approved" →
       c7Row.approvedBy = some "engine" ∧ c7Row.approvedAt = some 0) ∧
     (c7Row.status = "auto_approved" ∨ c7Row.status = "pending")) := by
  have hmem : c7Row ∈
      (engineRun dbC7 1 0 14).2.proposals.drop dbC7.proposals.length := by
    with_unfolding_all decide
  exact ⟨hmem, engineRun_routing dbC7 1 0 14 c7Row hmem⟩


/-! ### C2: budget reallocation and the efficiency index -/

/-- Overwriting key `k` leaves `find?`-lookups of a different `key`
unchanged on the mapped list. -/
theorem find?_overwrite (d : List (String × ℚ)) (k key : String) (v : ℚ)
    (hne : k ≠ key) :
    (d.map (fun p => if p.1 = k then (k, v) else p)).find? (fun p => p.1 = key)
      = d.find? (fun p => p.1 = key) := by
  induction d with
  | nil => rfl
  | cons hd tl ih =>
    simp only [List.map_cons]
    by_cases hk : hd.1 = k
    · rw [if_pos hk, List.find?_cons_of_neg _ (by simp [hne]),
        List.find?_cons_of_neg _ (by simp [hk, hne])]
      exact ih
    · rw [if_neg hk]
      by_cases hkey : hd.1 = key
      · rw [List.find?_cons_of_pos _ (by simp [hkey]),
          List.find?_cons_of_pos _ (by simp [hkey])]
      · rw [List.find?_cons_of_neg _ (by simp [hkey]),
          List.find?_cons_of_neg _ (by simp [hkey])]
        exact ih

/-- `d[k] = v` does not change `d.get(key)` for `key ≠ k`. -/
theorem dictGet_dictSet_ne (d : List (String × ℚ)) (k key : String) (v : ℚ)
    (hne : k ≠ key) : dictGet (dictSet d k v) key = dictGet d key := by
  unfold dictGet dictSet
  by_cases hany : d.any (fun p => p.1 = k)
  · rw [if_pos hany, find?_overwrite d k key v hne]
  · rw [if_neg hany, List.find?_append]
    have h0 : List.find? (fun p => p.1 = key) [(k, v)] = none := by
      simp [hne]
    rw [h0]
    simp

/-- A key never inserted by the per-channel KPI fold is never found. -/
theorem dictGet_foldl_kpis_none (c key : String) :
    ∀ (rows : List DerivedKPI) (acc : List (String × ℚ)),
      (∀ r ∈ rows, r.kpiName ≠ key) → dictGet acc key = none →
      dictGet (rows.foldl (fun acc k =>
        if k.channel == some c then dictSet acc k.kpiName k.kpiValue else acc)
        acc) key = none := by
  intro rows
  induction rows with
  | nil => intro acc _ hacc; exact hacc
  | cons r tl ih =>
    intro acc h hacc
    simp only [List.foldl_cons]
    refine ih _ (fun r' hr' => h r' (List.mem_cons_of_mem _ hr')) ?_
    by_cases hc : r.channel == some c
    · rw [if_pos hc, dictGet_dictSet_ne _ _ _ _ (h r (List.mem_cons_self _ _))]
      exact hacc
    · rw [if_neg hc]
      exact hacc

/-- The per-channel KPI dict only holds KPI names of its input rows. -/
theorem channelKpisOf_no_foreign_key (rows : List DerivedKPI) (c key : String)
    (h : ∀ r ∈ rows, r.kpiName ≠ key) :
    dictGet (channelKpisOf rows c) key = none :=
  dictGet_foldl_kpis_none c key rows [] h rfl

/-- Every KPI row of one bucket is named by one of the six KPIs. -/
theorem kpiRowsFor_kpiName_mem (cid : ℕ) (channel : Option String) (t : Totals)
    (ws we : Option ℤ) (row : DerivedKPI)
    (hmem : row ∈ kpiRowsFor cid channel t ws we) :
    row.kpiName ∈ ["ctr", "cvr", "cpc", "cpm", "cpa", "roas"] := by
  simp only [kpiRowsFor, List.mem_filterMap] at hmem
  obtain ⟨p, hp, hmatch⟩ := hmem
  simp only [calculateKpis, List.mem_cons, List.not_mem_nil, or_false] at hp
  simp only [Option.map_eq_some'] at hmatch
  obtain ⟨v, hv, hrow⟩ := hmatch
  rcases hp with h | h | h | h | h | h <;> subst h <;> subst hrow <;> simp

/-- `KPICalculator.compute` emits only the six KPI names — in particular
never `efficiency_index`. -/
theorem kpiCompute_kpiName_mem (cid : ℕ) (ms : List RawMetric) (ws we : Option ℤ)
    (row : DerivedKPI) (hmem : row ∈ kpiCompute cid ms ws we) :
    row.kpiName ∈ ["ctr", "cvr", "cpc", "cpm", "cpa", "roas"] := by
  unfold kpiCompute at hmem
  rw [List.mem_append] at hmem
  rcases hmem with h | h
  · rw [List.mem_flatMap] at h
    obtain ⟨ch, _, h⟩ := h
    exact kpiRowsFor_kpiName_mem _ _ _ _ _ _ h
  · exact kpiRowsFor_kpiName_mem _ _ _ _ _ _ h

/-- On every engine-built context the Budget-Reallocation scorer comes up
empty: no channel KPI dict ever carries `efficiency_index`. -/
theorem scoredChannels_buildContext (snaps : List Snapshot)
    (existingKpis : List DerivedKPI) (campaign : CampaignRow) (cid : ℕ)
    (today : ℤ) :
    scoredChannels (buildContext snaps existingKpis campaign cid today).1 = [] := by
  unfold scoredChannels buildContext
  dsimp only
  rw [List.filterMap_eq_nil_iff]
  intro ch hch
  rw [List.mem_map] at hch
  obtain ⟨c, _, rfl⟩ := hch
  dsimp only
  rw [channelKpisOf_no_foreign_key]
  · rfl
  · intro r hr hefi
    have hmem := kpiCompute_kpiName_mem _ _ _ _ _ hr
    rw [hefi] at hmem
    simp at hmem

/-- C2 (amended): the engine's KPI layer emits only the six KPI names and
never `efficiency_index`, so the Budget-Reallocation method abstains on
every engine-built context; handed channel KPI data that does carry
`efficiency_index` (as the measurement layer computes it) with two scored
channels at relative spread ≥ 0.20 and positive total budget, it fires a
`budget_reallocation` evaluation naming the top and bottom tiers and
moving `round₂(total_budget · 0.10)` from bottom to top. -/
theorem budgetRealloc_needs_measurement_efficiency
    (snaps : List Snapshot) (existingKpis : List DerivedKPI)
    (campaign : CampaignRow) (cid : ℕ) (today : ℤ) (ctx : MethodContext)
    (a b : String) (ea eb : ℚ)
    (hsorted : sortScored (scoredChannels ctx) = [(a, ea), (b, eb)])
    (hpos : ea > 0) (hspread : ¬((ea - eb) / ea < 1/5))
    (htotal : ¬((ctx.currentAllocations.map Prod.snd).sum ≤ 0)) :
    budgetReallocEvaluate (buildContext snaps existingKpis campaign cid today).1
      = none ∧
    ∃ ev, budgetReallocEvaluate ctx = some ev ∧
      ev.actionType = "budget_reallocation" ∧
      ev.actionPayload.topTier = some [a] ∧
      ev.actionPayload.bottomTier = some [b] ∧
      ev.actionPayload.moveAmount =
        some (roundQ 2 ((ctx.currentAllocations.map Prod.snd).sum * (1/10))) := by
  constructor
  · unfold budgetReallocEvaluate
    rw [scoredChannels_buildContext]
    rfl
  · have hlen : (scoredChannels ctx).length = 2 := by
      have h := congrArg List.length hsorted
      unfold sortScored at h
      rw [List.length_mergeSort] at h
      simpa using h
    unfold budgetReallocEvaluate
    dsimp only
    rw [if_neg (by rw [hlen]; norm_num), hsorted]
    dsimp only [List.getLast]
    rw [if_pos hpos, if_neg hspread, if_neg htotal]
    refine ⟨_, rfl, rfl, ?_, ?_, rfl⟩
    · with_unfolding_all rfl
    · with_unfolding_all rfl

/-- Counterexample for C2 as stated: `dbC2`'s channels score
measurement-layer efficiency 1.2 vs 0.6 (relative spread 0.5, above the
0.20 threshold), yet an engine run creates no proposal at all — the KPI
layer computes no `efficiency_index` key for any channel. -/
theorem engine_efficiency_counterexample :
    efficiencyIndex dbC2.snapshots 1 "meta" = some (6/5) ∧
    efficiencyIndex dbC2.snapshots 1 "google" = some (3/5) ∧
    ((kpiCompute 1 (collectMetrics dbC2.snapshots 1) none none).map
      (fun r => r.kpiName)).contains "efficiency_index" = false ∧
    (engineRun dbC2 1 0 14).1.success = true ∧
    (engineRun dbC2 1 0 14).1.proposalsCreated = 0 ∧
    (engineRun dbC2 1 0 14).2.proposals = [] := by
  with_unfolding_all decide

/-- Witness for C2 (amended): the 1.2 / 0.6 context `ctxEff` fires with
top tier `meta`, bottom tier `google`, moving 500 of the 5000 budget;
the engine-built context on any inputs abstains. -/
theorem budgetRealloc_needs_measurement_efficiency_witness :
    budgetReallocEvaluate (buildContext [] [] { id := 1 } 1 0).1 = none ∧
    ∃ ev, budgetReallocEvaluate ctxEff = some ev ∧
      ev.actionType = "budget_reallocation" ∧
      ev.actionPayload.topTier = some ["meta"] ∧
      ev.actionPayload.bottomTier = some ["google"] ∧
      ev.actionPayload.moveAmount =
        some (roundQ 2 ((ctxEff.currentAllocations.map Prod.snd).sum * (1/10))) :=
  budgetRealloc_needs_measurement_efficiency [] [] { id := 1 } 1 0 ctxEff
    "meta" "google" (6/5) (3/5)
    (by with_unfolding_all decide) (by norm_num) (by norm_num)
    (by with_unfolding_all decide)


/-! ### C4: back-to-back monitor cycles -/

/-- Every KPI row of one bucket carries the window it was computed for. -/
theorem kpiRowsFor_windowStart (cid : ℕ) (channel : Option String) (t : Totals)
    (ws we : Option ℤ) (row : DerivedKPI)
    (hmem : row ∈ kpiRowsFor cid channel t ws we) : row.windowStart = ws := by
  simp only [kpiRowsFor, List.mem_filterMap] at hmem
  obtain ⟨p, hp, hmatch⟩ := hmem
  simp only [Option.map_eq_some'] at hmatch
  obtain ⟨v, hv, hrow⟩ := hmatch
  subst hrow
  rfl

/-- The KPI rows an engine or verifier pass persists are windowless. -/
theorem kpiCompute_windowStart_none (cid : ℕ) (ms : List RawMetric)
    (row : DerivedKPI) (hmem : row ∈ kpiCompute cid ms none none) :
    row.windowStart = none := by
  unfold kpiCompute at hmem
  rw [List.mem_append] at hmem
  rcases hmem with h | h
  · rw [List.mem_flatMap] at h
    obtain ⟨ch, _, h⟩ := h
    exact kpiRowsFor_windowStart _ _ _ _ _ _ h
  · exact kpiRowsFor_windowStart _ _ _ _ _ _ h

/-- Windowless rows are invisible to the trend loader's range filter. -/
theorem loadKpisWindow_append_null (xs ys zs : List DerivedKPI)
    (h : ∀ r ∈ ys, r.windowStart = none) (cid : ℕ) (s e : ℤ) :
    loadKpisWindow (xs ++ ys ++ zs) cid s e = loadKpisWindow (xs ++ zs) cid s e := by
  unfold loadKpisWindow
  have hy : ys.filter (fun r =>
      r.campaignId == cid &&
      (match r.windowStart, r.windowEnd with
       | some ws, some we => decide (s ≤ ws ∧ we ≤ e)
       | _, _ => false)) = [] := by
    rw [List.filter_eq_nil_iff]
    intro r hr
    rw [h r hr]
    simp
  rw [List.filter_append, List.filter_append, hy, List.filter_append]
  simp

/-- Hence trend analysis ignores appended windowless rows. -/
theorem trendAnalyze_append_null (xs ys zs : List DerivedKPI)
    (h : ∀ r ∈ ys, r.windowStart = none) (cid : ℕ) (today : ℤ) :
    trendAnalyze (xs ++ ys ++ zs) cid today = trendAnalyze (xs ++ zs) cid today := by
  unfold trendAnalyze
  rw [loadKpisWindow_append_null _ _ _ h, loadKpisWindow_append_null _ _ _ h]

/-- The engine context is insensitive to windowless KPI rows appended by a
previous cycle: `buildContext` reads `existingKpis` only through the trend
loader. -/
theorem buildContext_append_null (snaps : List Snapshot)
    (xs ys : List DerivedKPI) (campaign : CampaignRow) (cid : ℕ) (today : ℤ)
    (h : ∀ r ∈ ys, r.windowStart = none) :
    buildContext snaps (xs ++ ys) campaign cid today =
      buildContext snaps xs campaign cid today := by
  unfold buildContext
  simp only [trendAnalyze_append_null _ _ _ h]


/-- In-place proposal updates that keep the key fields keep the key map. -/
theorem setProposal_map_key (ps : List ProposalRow) (pid : ℕ)
    (f : ProposalRow → ProposalRow)
    (hf : ∀ p, proposalKey (f p) = proposalKey p) :
    (setProposal ps pid f).map proposalKey = ps.map proposalKey := by
  unfold setProposal
  rw [List.map_map]
  apply List.map_congr_left
  intro p _
  by_cases hp : (p.id == pid) = true
  · simp only [Function.comp_apply, if_pos hp, hf]
  · simp only [Function.comp_apply, if_neg hp]

/-- One executor call never touches campaigns, snapshots, KPI rows or the
guardrail-visible proposal fields. -/
theorem executeProposal_key_state (db : Db) (pid : ℕ) (force : Bool) (now : ℚ) :
    (executeProposal db pid force now).2.campaigns = db.campaigns ∧
    (executeProposal db pid force now).2.snapshots = db.snapshots ∧
    (executeProposal db pid force now).2.derivedKpis = db.derivedKpis ∧
    (executeProposal db pid force now).2.proposals.map proposalKey =
      db.proposals.map proposalKey := by
  unfold executeProposal
  cases hfp : db.proposals.find? (fun p => p.id == pid) with
  | none => exact ⟨rfl, rfl, rfl, rfl⟩
  | some proposal =>
    dsimp only
    by_cases hgate :
        (!force && !(proposal.status == "approved" || proposal.status == "auto_approved")) = true
    · rw [if_pos hgate]
      exact ⟨rfl, rfl, rfl, rfl⟩
    · rw [if_neg hgate]
      cases hex : db.executions.find?
          (fun e => e.idempotencyKey == proposalIdempotencyKey pid) with
      | some existing => exact ⟨rfl, rfl, rfl, rfl⟩
      | none =>
        dsimp only
        by_cases hadv : (proposal.actionType == "creative_refresh") = true
        · rw [if_pos hadv]
          unfold executeAdvisory
          exact ⟨rfl, rfl, rfl, setProposal_map_key _ _ _ (fun p => rfl)⟩
        · rw [if_neg hadv]
          by_cases hplat : (proposal.actionType == "budget_reallocation" ||
              proposal.actionType == "pause_channel" ||
              proposal.actionType == "resume_channel") = true
          · rw [if_pos hplat]
            unfold executePlatformAction
            exact ⟨rfl, rfl, rfl, setProposal_map_key _ _ _ (fun p => rfl)⟩
          · rw [if_neg hplat]
            exact ⟨rfl, rfl, rfl, setProposal_map_key _ _ _ (fun p => rfl)⟩

/-- Batch execution preserves the same observables. -/
theorem executeBatch_key_state (pids : List ℕ) (now : ℚ) :
    ∀ st : BatchExecutionResult × Db,
    (pids.foldl (fun st pid =>
      let rd := executeProposal st.2 pid false now
      ({ st.1 with
         succeeded := st.1.succeeded + (if rd.1.success then 1 else 0)
         failed := st.1.failed + (if rd.1.success then 0 else 1) }, rd.2)) st).2.campaigns
        = st.2.campaigns ∧
    (pids.foldl (fun st pid =>
      let rd := executeProposal st.2 pid false now
      ({ st.1 with
         succeeded := st.1.succeeded + (if rd.1.success then 1 else 0)
         failed := st.1.failed + (if rd.1.success then 0 else 1) }, rd.2)) st).2.snapshots
        = st.2.snapshots ∧
    (pids.foldl (fun st pid =>
      let rd := executeProposal st.2 pid false now
      ({ st.1 with
         succeeded := st.1.succeeded + (if rd.1.success then 1 else 0)
         failed := st.1.failed + (if rd.1.success then 0 else 1) }, rd.2)) st).2.derivedKpis
        = st.2.derivedKpis ∧
    (pids.foldl (fun st pid =>
      let rd := executeProposal st.2 pid false now
      ({ st.1 with
         succeeded := st.1.succeeded + (if rd.1.success then 1 else 0)
         failed := st.1.failed + (if rd.1.success then 0 else 1) }, rd.2)) st).2.proposals.map
        proposalKey = st.2.proposals.map proposalKey := by
  induction pids with
  | nil => intro st; exact ⟨rfl, rfl, rfl, rfl⟩
  | cons pid tl ih =>
    intro st
    simp only [List.foldl_cons]
    obtain ⟨ic, is, ik, ip⟩ := ih
      ({ st.1 with
         succeeded := st.1.succeeded + (if (executeProposal st.2 pid false now).1.success then 1 else 0)
         failed := st.1.failed + (if (executeProposal st.2 pid false now).1.success then 0 else 1) },
       (executeProposal st.2 pid false now).2)
    obtain ⟨ec, es, ek, ep⟩ := executeProposal_key_state st.2 pid false now
    exact ⟨ic.trans ec, is.trans es, ik.trans ek, ip.trans ep⟩


/-- `execute_batch` itself, restated on the `Db` projections. -/
theorem executeBatch_state (db : Db) (pids : List ℕ) (now : ℚ) :
    (executeBatch db pids now).2.campaigns = db.campaigns ∧
    (executeBatch db pids now).2.snapshots = db.snapshots ∧
    (executeBatch db pids now).2.derivedKpis = db.derivedKpis ∧
    (executeBatch db pids now).2.proposals.map proposalKey =
      db.proposals.map proposalKey :=
  executeBatch_key_state pids now ({ total := pids.length }, db)

/-- Composing two windowless KPI extensions. -/
theorem nullAppend_trans {xs ys zs : List DerivedKPI}
    (h1 : ∃ e, ys = xs ++ e ∧ ∀ r ∈ e, r.windowStart = none)
    (h2 : ∃ e, zs = ys ++ e ∧ ∀ r ∈ e, r.windowStart = none) :
    ∃ e, zs = xs ++ e ∧ ∀ r ∈ e, r.windowStart = none := by
  obtain ⟨e1, he1, hn1⟩ := h1
  obtain ⟨e2, he2, hn2⟩ := h2
  refine ⟨e1 ++ e2, ?_, ?_⟩
  · rw [he2, he1, List.append_assoc]
  · intro r hr
    rcases List.mem_append.mp hr with h | h
    · exact hn1 r h
    · exact hn2 r h

/-- One verifier call never touches campaigns, snapshots or proposals, and
extends the KPI table only with windowless rows. -/
theorem verifyProposal_key_state (db : Db) (pid : ℕ) (now w : ℚ) :
    (verifyProposal db pid now w).2.campaigns = db.campaigns ∧
    (verifyProposal db pid now w).2.snapshots = db.snapshots ∧
    (verifyProposal db pid now w).2.proposals = db.proposals ∧
    (∃ e, (verifyProposal db pid now w).2.derivedKpis = db.derivedKpis ++ e ∧
      ∀ r ∈ e, r.windowStart = none) := by
  unfold verifyProposal
  cases hfp : db.proposals.find? (fun p => p.id == pid) with
  | none => exact ⟨rfl, rfl, rfl, [], (List.append_nil _).symm, by simp⟩
  | some proposal =>
    dsimp only
    split
    · exact ⟨rfl, rfl, rfl, [], (List.append_nil _).symm, by simp⟩
    · split
      · exact ⟨rfl, rfl, rfl, [], (List.append_nil _).symm, by simp⟩
      · cases hl : db.learnings.find? (fun l =>
            l.proposalId == pid && l.verificationStatus == "verified") with
        | some existing =>
          exact ⟨rfl, rfl, rfl, [], (List.append_nil _).symm, by simp⟩
        | none =>
          dsimp only
          split
          · exact ⟨rfl, rfl, rfl, [], (List.append_nil _).symm, by simp⟩
          · refine ⟨rfl, rfl, rfl,
              kpiCompute proposal.campaignId
                (collectMetrics db.snapshots proposal.campaignId) none none,
              rfl, ?_⟩
            intro r hr
            exact kpiCompute_windowStart_none _ _ _ hr

/-- Batch verification preserves the same observables. -/
theorem verifyBatch_foldl_state (now : ℚ) :
    ∀ (cands : List ProposalRow) (cutoff : ℚ) (st : BatchVerificationResult × Db),
    (cands.foldl (fun st p =>
      if p.executedAt.getD 0 < cutoff then st
      else
        let vd := verifyProposal st.2 p.id now verificationDelayHours
        ((if vd.1.error = some "pending" then { st.1 with pending := st.1.pending + 1 }
          else if vd.1.success then { st.1 with verified := st.1.verified + 1 }
          else { st.1 with failed := st.1.failed + 1 }), vd.2)) st).2.campaigns
        = st.2.campaigns ∧
    (cands.foldl (fun st p =>
      if p.executedAt.getD 0 < cutoff then st
      else
        let vd := verifyProposal st.2 p.id now verificationDelayHours
        ((if vd.1.error = some "pending" then { st.1 with pending := st.1.pending + 1 }
          else if vd.1.success then { st.1 with verified := st.1.verified + 1 }
          else { st.1 with failed := st.1.failed + 1 }), vd.2)) st).2.snapshots
        = st.2.snapshots ∧
    (cands.foldl (fun st p =>
      if p.executedAt.getD 0 < cutoff then st
      else
        let vd := verifyProposal st.2 p.id now verificationDelayHours
        ((if vd.1.error = some "pending" then { st.1 with pending := st.1.pending + 1 }
          else if vd.1.success then { st.1 with verified := st.1.verified + 1 }
          else { st.1 with failed := st.1.failed + 1 }), vd.2)) st).2.proposals
        = st.2.proposals ∧
    (∃ e, (cands.foldl (fun st p =>
      if p.executedAt.getD 0 < cutoff then st
      else
        let vd := verifyProposal st.2 p.id now verificationDelayHours
        ((if vd.1.error = some "pending" then { st.1 with pending := st.1.pending + 1 }
          else if vd.1.success then { st.1 with verified := st.1.verified + 1 }
          else { st.1 with failed := st.1.failed + 1 }), vd.2)) st).2.derivedKpis
        = st.2.derivedKpis ++ e ∧ ∀ r ∈ e, r.windowStart = none) := by
  intro cands
  induction cands with
  | nil =>
    intro cutoff st
    exact ⟨rfl, rfl, rfl, [], (List.append_nil _).symm, by simp⟩
  | cons p tl ih =>
    intro cutoff st
    simp only [List.foldl_cons]
    by_cases hcut : p.executedAt.getD 0 < cutoff
    · rw [if_pos hcut]
      exact ih cutoff st
    · rw [if_neg hcut]
      obtain ⟨vc, vs, vp, vk⟩ := verifyProposal_key_state st.2 p.id now verificationDelayHours
      obtain ⟨ic, is, ip, ik⟩ := ih cutoff
        ((if (verifyProposal st.2 p.id now verificationDelayHours).1.error = some "pending" then
            { st.1 with pending := st.1.pending + 1 }
          else if (verifyProposal st.2 p.id now verificationDelayHours).1.success then
            { st.1 with verified := st.1.verified + 1 }
          else { st.1 with failed := st.1.failed + 1 }),
         (verifyProposal st.2 p.id now verificationDelayHours).2)
      exact ⟨ic.trans vc, is.trans vs, ip.trans vp,
        nullAppend_trans vk ik⟩

/-- `verify_batch` itself, restated on the `Db` projections. -/
theorem verifyBatch_state (db : Db) (cid : ℕ) (now w : ℚ) :
    (verifyBatch db cid now w).2.campaigns = db.campaigns ∧
    (verifyBatch db cid now w).2.snapshots = db.snapshots ∧
    (verifyBatch db cid now w).2.proposals = db.proposals ∧
    (∃ e, (verifyBatch db cid now w).2.derivedKpis = db.derivedKpis ++ e ∧
      ∀ r ∈ e, r.windowStart = none) :=
  verifyBatch_foldl_state now
    (db.proposals.filter (fun p =>
      p.campaignId == cid && p.status == "executed" && !p.executedAt.isNone))
    (now - w * 60)
    ({ total := (db.proposals.filter (fun p =>
      p.campaignId == cid && p.status == "executed" && !p.executedAt.isNone)).length }, db)


/-- An engine run never touches campaigns or snapshots and extends the KPI
table only with windowless rows. -/
theorem engineRun_effects (db : Db) (cid : ℕ) (now : ℚ) (today : ℤ) :
    (engineRun db cid now today).2.campaigns = db.campaigns ∧
    (engineRun db cid now today).2.snapshots = db.snapshots ∧
    (∃ e, (engineRun db cid now today).2.derivedKpis = db.derivedKpis ++ e ∧
      ∀ r ∈ e, r.windowStart = none) := by
  unfold engineRun
  cases hfc : db.campaigns.find? (fun c => c.id == cid) with
  | none => exact ⟨rfl, rfl, [], (List.append_nil _).symm, by simp⟩
  | some campaign =>
    dsimp only
    split
    · exact ⟨rfl, rfl, [], (List.append_nil _).symm, by simp⟩
    · split
      · refine ⟨rfl, rfl,
          (buildContext db.snapshots db.derivedKpis campaign cid today).2.2.1,
          rfl, ?_⟩
        intro r hr
        exact kpiCompute_windowStart_none _ _ _ hr
      · refine ⟨rfl, rfl,
          (buildContext db.snapshots db.derivedKpis campaign cid today).2.2.1,
          rfl, ?_⟩
        intro r hr
        exact kpiCompute_windowStart_none _ _ _ hr

/-- A monitor cycle is its engine phase followed by observable-preserving
act and verify phases (plus an audit row). -/
theorem runCycle_decomp (db : Db) (cid : ℕ) (now : ℚ) (today : ℤ) :
    (runCycle db cid now today).1.engineResult = (engineRun db cid now today).1 ∧
    (runCycle db cid now today).2.campaigns = (engineRun db cid now today).2.campaigns ∧
    (runCycle db cid now today).2.snapshots = (engineRun db cid now today).2.snapshots ∧
    (runCycle db cid now today).2.proposals.map proposalKey =
      (engineRun db cid now today).2.proposals.map proposalKey ∧
    (∃ e, (runCycle db cid now today).2.derivedKpis =
      (engineRun db cid now today).2.derivedKpis ++ e ∧
      ∀ r ∈ e, r.windowStart = none) := by
  rcases hE : engineRun db cid now today with ⟨er, db1⟩
  unfold runCycle
  rw [hE]
  dsimp only
  by_cases hauto : ((db1.proposals.filter (fun p =>
      p.campaignId == cid && p.status == "auto_approved" &&
        p.executedAt.isNone)).map (fun p => p.id)).isEmpty = true
  · rw [if_pos hauto]
    dsimp only
    rcases hV : verifyBatch db1 cid now 48 with ⟨vr, db3⟩
    obtain ⟨c3, s3, p3, k3⟩ := verifyBatch_state db1 cid now 48
    rw [hV] at c3 s3 p3 k3
    exact ⟨rfl, c3, s3, by rw [p3], k3⟩
  · rw [if_neg hauto]
    dsimp only
    obtain ⟨bc, bs, bk, bp⟩ := executeBatch_state db1
      ((db1.proposals.filter (fun p =>
        p.campaignId == cid && p.status == "auto_approved" &&
          p.executedAt.isNone)).map (fun p => p.id)) now
    rcases hV : verifyBatch (executeBatch db1
      ((db1.proposals.filter (fun p =>
        p.campaignId == cid && p.status == "auto_approved" &&
          p.executedAt.isNone)).map (fun p => p.id)) now).2 cid now 48 with ⟨vr, db3⟩
    obtain ⟨c3, s3, p3, k3⟩ := verifyBatch_state (executeBatch db1
      ((db1.proposals.filter (fun p =>
        p.campaignId == cid && p.status == "auto_approved" &&
          p.executedAt.isNone)).map (fun p => p.id)) now).2 cid now 48
    rw [hV] at c3 s3 p3 k3
    refine ⟨rfl, ?_, ?_, ?_, ?_⟩
    · rw [hV]
      exact c3.trans bc
    · rw [hV]
      exact s3.trans bs
    · rw [hV, p3]
      exact bp
    · rw [hV]
      rw [bk] at k3
      exact k3


/-- One creation step appends exactly one proposal carrying the
evaluation's action type, the campaign and the cycle timestamp. -/
theorem createProposalStep_shape (cid : ℕ) (now : ℚ)
    (st : List MethodRow × ℕ × List ProposalRow)
    (pe : MethodEvaluation × List GuardrailCheckResult) :
    ∃ q, (createProposalStep cid now st pe).2.2 = st.2.2 ++ [q] ∧
      q.actionType = pe.1.actionType ∧ q.campaignId = cid ∧ q.createdAt = now := by
  unfold createProposalStep
  rcases he : ensureMethodRow st.1 st.2.1 pe.1.actionType with ⟨mrow, m2, n2⟩
  exact ⟨_, rfl, rfl, rfl, rfl⟩

/-- Already created proposals survive the rest of the creation fold. -/
theorem createProposals_mono (cid : ℕ) (now : ℚ)
    (passing : List (MethodEvaluation × List GuardrailCheckResult)) :
    ∀ (st : List MethodRow × ℕ × List ProposalRow) (p : ProposalRow),
      p ∈ st.2.2 →
      p ∈ (passing.foldl (createProposalStep cid now) st).2.2 := by
  induction passing with
  | nil => intro st p hp; exact hp
  | cons pe tl ih =>
    intro st p hp
    rw [List.foldl_cons]
    apply ih
    obtain ⟨q, hq, _, _, _⟩ := createProposalStep_shape cid now st pe
    rw [hq]
    exact List.mem_append_left _ hp

/-- Every surviving evaluation yields a stored proposal of its action
type, for this campaign, stamped with the cycle timestamp. -/
theorem createProposals_covers_aux (cid : ℕ) (now : ℚ)
    (passing : List (MethodEvaluation × List GuardrailCheckResult)) :
    ∀ (st : List MethodRow × ℕ × List ProposalRow)
      (pe : MethodEvaluation × List GuardrailCheckResult), pe ∈ passing →
      ∃ p ∈ (passing.foldl (createProposalStep cid now) st).2.2,
        p.actionType = pe.1.actionType ∧ p.campaignId = cid ∧ p.createdAt = now := by
  induction passing with
  | nil => intro st pe hpe; exact absurd hpe (List.not_mem_nil pe)
  | cons h tl ih =>
    intro st pe hpe
    rw [List.foldl_cons]
    rcases List.mem_cons.mp hpe with heq | hmem
    · subst heq
      obtain ⟨q, hq, ha, hc, ht⟩ := createProposalStep_shape cid now st pe
      refine ⟨q, ?_, ha, hc, ht⟩
      apply createProposals_mono
      rw [hq]
      exact List.mem_append_right _ (List.mem_singleton_self q)
    · exact ih (createProposalStep cid now st h) pe hmem

/-- `createProposals` coverage, stated on the entry point. -/
theorem createProposals_covers (cid : ℕ) (now : ℚ)
    (passing : List (MethodEvaluation × List GuardrailCheckResult))
    (methods : List MethodRow) (nid : ℕ)
    (pe : MethodEvaluation × List GuardrailCheckResult) (hpe : pe ∈ passing) :
    ∃ p ∈ (createProposals cid now passing methods nid).2.2,
      p.actionType = pe.1.actionType ∧ p.campaignId = cid ∧ p.createdAt = now :=
  createProposals_covers_aux cid now passing (methods, nid, []) pe hpe

/-- Calibration and routing keep the guardrail-visible key fields. -/
theorem calibrateAndRoute_key (now : ℚ) (sc rm : ℕ) (p : ProposalRow) :
    (calibrateAndRoute now sc rm p).actionType = p.actionType ∧
    (calibrateAndRoute now sc rm p).campaignId = p.campaignId ∧
    (calibrateAndRoute now sc rm p).createdAt = p.createdAt := by
  unfold calibrateAndRoute routeProposal
  split <;> exact ⟨rfl, rfl, rfl⟩

/-- `_get_last_fired` sees proposals only through their key fields. -/
theorem lastFiredAt_congr (ps qs : List ProposalRow)
    (h : ps.map proposalKey = qs.map proposalKey) (cid : ℕ) (a : String) :
    lastFiredAt ps cid a = lastFiredAt qs cid a := by
  unfold lastFiredAt
  have key : ∀ rs : List ProposalRow,
      ((rs.filter (fun p => p.campaignId == cid && p.actionType == a)).map
        (fun p => p.createdAt)) =
      (((rs.map proposalKey).filter
        (fun k => k.2.1 == cid && k.2.2.1 == a)).map (fun k => k.2.2.2)) := by
    intro rs
    rw [List.filter_map, List.map_map]
    rfl
  rw [key ps, key qs, h]

/-- A member bounds the list maximum from below. -/
theorem exists_max?_ge {l : List ℚ} {x : ℚ} (h : x ∈ l) :
    ∃ m, l.max? = some m ∧ x ≤ m := by
  obtain ⟨m, hm⟩ := Option.isSome_iff_exists.mp (List.isSome_max?_of_mem h)
  exact ⟨m, hm, (List.max?_le_iff (fun a b c => max_le_iff) hm).mp le_rfl x h⟩


/-- Filters keyed on this campaign see nothing when the store holds no
proposal of the campaign. -/
theorem filter_cid_nil (ps : List ProposalRow) (cid : ℕ)
    (hnop : ∀ p ∈ ps, p.campaignId ≠ cid) (f : ProposalRow → Bool) :
    ps.filter (fun p => p.campaignId == cid && f p) = [] := by
  rw [List.filter_eq_nil_iff]
  intro p hp
  simp only [Bool.and_eq_true, beq_iff_eq, not_and]
  intro h
  exact absurd h (hnop p hp)

/-- `DecisionEngine.run` on the main path (campaign found, snapshots
present, some method fired), written out. -/
theorem engineRun_core (db : Db) (cid : ℕ) (now : ℚ) (today : ℤ)
    (campaign : CampaignRow)
    (hfc : db.campaigns.find? (fun c => c.id == cid) = some campaign)
    (hn : ¬((db.snapshots.filter (fun s => s.campaignId == cid)).length = 0))
    (hev : ¬((evaluateAll
      (buildContext db.snapshots db.derivedKpis campaign cid today).1).isEmpty = true)) :
    engineRun db cid now today =
      ({ success := true
         campaignId := cid
         proposalsCreated :=
           ((createProposals cid now
             (((evaluateAll (buildContext db.snapshots db.derivedKpis campaign cid today).1).map
               (fun e => (e, guardrailChecksFor db.proposals cid
                 (buildContext db.snapshots db.derivedKpis campaign cid today).1.currentAllocations
                 ((db.proposals.filter (fun p =>
                   p.campaignId == cid && p.createdAt ≥ now - 60)).map (·.createdAt))
                 now e))).filter (fun ec => ec.2.all (·.passed)))
             db.methods db.nextId).2.2.map
               (calibrateAndRoute now
                 (db.snapshots.filter (fun s => s.campaignId == cid)).length
                 (buildContext db.snapshots db.derivedKpis campaign cid today).2.1.length)).length
         proposalsAutoApproved :=
           (((createProposals cid now
             (((evaluateAll (buildContext db.snapshots db.derivedKpis campaign cid today).1).map
               (fun e => (e, guardrailChecksFor db.proposals cid
                 (buildContext db.snapshots db.derivedKpis campaign cid today).1.currentAllocations
                 ((db.proposals.filter (fun p =>
                   p.campaignId == cid && p.createdAt ≥ now - 60)).map (·.createdAt))
                 now e))).filter (fun ec => ec.2.all (·.passed)))
             db.methods db.nextId).2.2.map
               (calibrateAndRoute now
                 (db.snapshots.filter (fun s => s.campaignId == cid)).length
                 (buildContext db.snapshots db.derivedKpis campaign cid today).2.1.length)).filter
             (fun p => p.status == "auto_approved")).length
         proposalsQueued :=
           (((createProposals cid now
             (((evaluateAll (buildContext db.snapshots db.derivedKpis campaign cid today).1).map
               (fun e => (e, guardrailChecksFor db.proposals cid
                 (buildContext db.snapshots db.derivedKpis campaign cid today).1.currentAllocations
                 ((db.proposals.filter (fun p =>
                   p.campaignId == cid && p.createdAt ≥ now - 60)).map (·.createdAt))
                 now e))).filter (fun ec => ec.2.all (·.passed)))
             db.methods db.nextId).2.2.map
               (calibrateAndRoute now
                 (db.snapshots.filter (fun s => s.campaignId == cid)).length
                 (buildContext db.snapshots db.derivedKpis campaign cid today).2.1.length)).filter
             (fun p => p.status != "auto_approved")).length
         guardrailRejections :=
           ((evaluateAll (buildContext db.snapshots db.derivedKpis campaign cid today).1).map
               (fun e => (e, guardrailChecksFor db.proposals cid
                 (buildContext db.snapshots db.derivedKpis campaign cid today).1.currentAllocations
                 ((db.proposals.filter (fun p =>
                   p.campaignId == cid && p.createdAt ≥ now - 60)).map (·.createdAt))
                 now e))).length -
           (((evaluateAll (buildContext db.snapshots db.derivedKpis campaign cid today).1).map
               (fun e => (e, guardrailChecksFor db.proposals cid
                 (buildContext db.snapshots db.derivedKpis campaign cid today).1.currentAllocations
                 ((db.proposals.filter (fun p =>
                   p.campaignId == cid && p.createdAt ≥ now - 60)).map (·.createdAt))
                 now e))).filter (fun ec => ec.2.all (·.passed))).length
         methodEvaluations :=
           (evaluateAll (buildContext db.snapshots db.derivedKpis campaign cid today).1).length },
       { db with
         rawMetrics := db.rawMetrics ++
           (buildContext db.snapshots db.derivedKpis campaign cid today).2.1
         derivedKpis := db.derivedKpis ++
           (buildContext db.snapshots db.derivedKpis campaign cid today).2.2.1
         trendIndicators := db.trendIndicators ++
           (buildContext db.snapshots db.derivedKpis campaign cid today).2.2.2
         methods :=
           (createProposals cid now
             (((evaluateAll (buildContext db.snapshots db.derivedKpis campaign cid today).1).map
               (fun e => (e, guardrailChecksFor db.proposals cid
                 (buildContext db.snapshots db.derivedKpis campaign cid today).1.currentAllocations
                 ((db.proposals.filter (fun p =>
                   p.campaignId == cid && p.createdAt ≥ now - 60)).map (·.createdAt))
                 now e))).filter (fun ec => ec.2.all (·.passed)))
             db.methods db.nextId).1
         nextId :=
           (createProposals cid now
             (((evaluateAll (buildContext db.snapshots db.derivedKpis campaign cid today).1).map
               (fun e => (e, guardrailChecksFor db.proposals cid
                 (buildContext db.snapshots db.derivedKpis campaign cid today).1.currentAllocations
                 ((db.proposals.filter (fun p =>
                   p.campaignId == cid && p.createdAt ≥ now - 60)).map (·.createdAt))
                 now e))).filter (fun ec => ec.2.all (·.passed)))
             db.methods db.nextId).2.1
         proposals := db.proposals ++
           ((createProposals cid now
             (((evaluateAll (buildContext db.snapshots db.derivedKpis campaign cid today).1).map
               (fun e => (e, guardrailChecksFor db.proposals cid
                 (buildContext db.snapshots db.derivedKpis campaign cid today).1.currentAllocations
                 ((db.proposals.filter (fun p =>
                   p.campaignId == cid && p.createdAt ≥ now - 60)).map (·.createdAt))
                 now e))).filter (fun ec => ec.2.all (·.passed)))
             db.methods db.nextId).2.2.map
               (calibrateAndRoute now
                 (db.snapshots.filter (fun s => s.campaignId == cid)).length
                 (buildContext db.snapshots db.derivedKpis campaign cid today).2.1.length)) }) := by
  unfold engineRun
  rw [hfc]
  dsimp only
  rw [if_neg hn, if_neg hev]


/-- With no proposals of the campaign on file, a first cycle's guardrail
verdict is exactly the budget/floor verdict (rate and cooldown pass). -/
theorem cycleOne_checks (ps : List ProposalRow) (cid : ℕ)
    (hnop : ∀ p ∈ ps, p.campaignId ≠ cid) (alloc : List (String × ℚ))
    (now : ℚ) (e : MethodEvaluation) :
    ((guardrailChecksFor ps cid alloc
      ((ps.filter (fun p => p.campaignId == cid && p.createdAt ≥ now - 60)).map
        (·.createdAt)) now e).all (·.passed)) =
    (!(e.actionType == "budget_reallocation") ||
      ((checkBudgetChangeLimit alloc e.actionPayload.newAllocations
          maxBudgetChangePct).passed &&
       (checkMinimumChannelFloor e.actionPayload.newAllocations
          minChannelFloorPct).passed)) := by
  have hrec : ps.filter (fun p =>
      p.campaignId == cid && p.createdAt ≥ now - 60) = [] :=
    filter_cid_nil ps cid hnop _
  have hlast : ps.filter (fun p =>
      p.campaignId == cid && p.actionType == e.actionType) = [] :=
    filter_cid_nil ps cid hnop _
  unfold guardrailChecksFor
  rw [hrec]
  unfold lastFiredAt
  rw [hlast]
  by_cases hb : (e.actionType == "budget_reallocation") = true
  · rw [if_pos hb, hb]
    simp [checkRateLimit, checkCooldown, maxProposalsPerHour]
  · rw [if_neg hb]
    simp only [Bool.not_eq_true] at hb
    rw [hb]
    simp [checkRateLimit, checkCooldown, maxProposalsPerHour]

/-- A cooldown hit sinks the whole guardrail list. -/
theorem checks_cooldown_fail (qs : List ProposalRow) (cid : ℕ)
    (alloc : List (String × ℚ)) (recent : List ℚ) (now : ℚ)
    (e : MethodEvaluation) (m : ℚ)
    (hm : lastFiredAt qs cid e.actionType = some m) (hlt : now - m < 60) :
    ((guardrailChecksFor qs cid alloc recent now e).all (·.passed)) = false := by
  unfold guardrailChecksFor
  rw [hm]
  split
  · simp [checkCooldown, defaultCooldownMinutes, hlt]
  · simp [checkCooldown, defaultCooldownMinutes, hlt]

/-- A budget/floor failure sinks the whole guardrail list. -/
theorem checks_budget_fail (qs : List ProposalRow) (cid : ℕ)
    (alloc : List (String × ℚ)) (recent : List ℚ) (now : ℚ)
    (e : MethodEvaluation)
    (hb : (e.actionType == "budget_reallocation") = true)
    (hf : ((checkBudgetChangeLimit alloc e.actionPayload.newAllocations
        maxBudgetChangePct).passed &&
      (checkMinimumChannelFloor e.actionPayload.newAllocations
        minChannelFloorPct).passed) = false) :
    ((guardrailChecksFor qs cid alloc recent now e).all (·.passed)) = false := by
  unfold guardrailChecksFor
  rw [if_pos hb]
  cases hbc : (checkBudgetChangeLimit alloc e.actionPayload.newAllocations
      maxBudgetChangePct).passed <;>
    cases hfc : (checkMinimumChannelFloor e.actionPayload.newAllocations
      minChannelFloorPct).passed <;>
    simp_all

/-- A stored proposal of the action type bounds `_get_last_fired`. -/
theorem lastFiredAt_ge_of_mem (ps : List ProposalRow) (cid : ℕ) (a : String)
    (q : ProposalRow) (hq : q ∈ ps) (hc : q.campaignId = cid)
    (ha : q.actionType = a) :
    ∃ m, lastFiredAt ps cid a = some m ∧ q.createdAt ≤ m := by
  unfold lastFiredAt
  have hmem : q.createdAt ∈ (ps.filter (fun p =>
      p.campaignId == cid && p.actionType == a)).map (·.createdAt) :=
    List.mem_map_of_mem _ (List.mem_filter.mpr ⟨hq, by simp [hc, ha]⟩)
  exact exists_max?_ge hmem


/-- The heart of the back-to-back property: a second engine run within the
cooldown window of a first run that started from a proposal-free store
creates nothing — every evaluation is stopped by the cooldown guardrail
(if it passed the first run) or by the same deterministic budget/floor
check (if it did not). -/
theorem engineRun_second_blocked
    (dbA dbB : Db) (cid : ℕ) (now1 now2 : ℚ) (today : ℤ)
    (hnop : ∀ p ∈ dbA.proposals, p.campaignId ≠ cid)
    (hcamp : dbB.campaigns = dbA.campaigns)
    (hsnap : dbB.snapshots = dbA.snapshots)
    (hkpis : ∃ ex, dbB.derivedKpis = dbA.derivedKpis ++ ex ∧
      ∀ r ∈ ex, r.windowStart = none)
    (hprops : dbB.proposals.map proposalKey =
      (engineRun dbA cid now1 today).2.proposals.map proposalKey)
    (hgap : now2 - now1 < 60) :
    (engineRun dbB cid now2 today).1.proposalsCreated = 0 ∧
    (engineRun dbB cid now2 today).2.proposals = dbB.proposals := by
  obtain ⟨extra, hkeq, hknull⟩ := hkpis
  cases hfc : dbA.campaigns.find? (fun c => c.id == cid) with
  | none =>
    unfold engineRun
    rw [hcamp, hfc]
    exact ⟨rfl, rfl⟩
  | some campaign =>
    by_cases hn : ((dbA.snapshots.filter (fun s => s.campaignId == cid)).length = 0)
    · unfold engineRun
      rw [hcamp, hfc]
      dsimp only
      rw [hsnap, if_pos hn]
      exact ⟨rfl, rfl⟩
    · by_cases hev : ((evaluateAll (buildContext dbA.snapshots dbA.derivedKpis campaign cid today).1).isEmpty = true)
      · unfold engineRun
        rw [hcamp, hfc]
        dsimp only
        rw [hsnap, if_neg hn]
        rw [hkeq]
        simp only [buildContext_append_null _ _ _ _ _ _ hknull]
        rw [if_pos hev]
        exact ⟨rfl, rfl⟩
      · have hfcB : dbB.campaigns.find? (fun c => c.id == cid) = some campaign := by
          rw [hcamp]
          exact hfc
        have hnB : ¬((dbB.snapshots.filter (fun s => s.campaignId == cid)).length = 0) := by
          rw [hsnap]
          exact hn
        have hevB : ¬((evaluateAll
            (buildContext dbB.snapshots dbB.derivedKpis campaign cid today).1).isEmpty = true) := by
          rw [hsnap, hkeq, buildContext_append_null _ _ _ _ _ _ hknull]
          exact hev
        have hrun1 := engineRun_core dbA cid now1 today campaign hfc hn hev
        have hrun2 := engineRun_core dbB cid now2 today campaign hfcB hnB hevB
        rw [hsnap, hkeq] at hrun2
        simp only [buildContext_append_null _ _ _ _ _ _ hknull] at hrun2
        have hpropsA : dbB.proposals.map proposalKey =
            (dbA.proposals ++ ((createProposals cid now1 (((evaluateAll (buildContext dbA.snapshots dbA.derivedKpis campaign cid today).1).map (fun e => (e, guardrailChecksFor dbA.proposals cid (buildContext dbA.snapshots dbA.derivedKpis campaign cid today).1.currentAllocations ((dbA.proposals.filter (fun p => p.campaignId == cid && p.createdAt ≥ now1 - 60)).map (·.createdAt)) now1 e))).filter (fun ec => ec.2.all (·.passed))) dbA.methods dbA.nextId).2.2.map (calibrateAndRoute now1 (dbA.snapshots.filter (fun s => s.campaignId == cid)).length (buildContext dbA.snapshots dbA.derivedKpis campaign cid today).2.1.length))).map proposalKey := by
          rw [hprops, hrun1]
        have hpass : (((evaluateAll (buildContext dbA.snapshots dbA.derivedKpis campaign cid today).1).map
            (fun e => (e, guardrailChecksFor dbB.proposals cid
              (buildContext dbA.snapshots dbA.derivedKpis campaign cid today).1.currentAllocations
              ((dbB.proposals.filter (fun p =>
                p.campaignId == cid && p.createdAt ≥ now2 - 60)).map (·.createdAt))
              now2 e))).filter (fun ec => ec.2.all (·.passed))) = [] := by
          rw [List.filter_eq_nil_iff]
          intro ec hec
          rw [List.mem_map] at hec
          obtain ⟨e, he, rfl⟩ := hec
          dsimp only
          rw [Bool.not_eq_true]
          by_cases h1 : (((guardrailChecksFor dbA.proposals cid (buildContext dbA.snapshots dbA.derivedKpis campaign cid today).1.currentAllocations ((dbA.proposals.filter (fun p => p.campaignId == cid && p.createdAt ≥ now1 - 60)).map (·.createdAt)) now1 e)).all (·.passed)) = true
          · have hin : (e, (guardrailChecksFor dbA.proposals cid (buildContext dbA.snapshots dbA.derivedKpis campaign cid today).1.currentAllocations ((dbA.proposals.filter (fun p => p.campaignId == cid && p.createdAt ≥ now1 - 60)).map (·.createdAt)) now1 e)) ∈ (((evaluateAll (buildContext dbA.snapshots dbA.derivedKpis campaign cid today).1).map (fun e => (e, guardrailChecksFor dbA.proposals cid (buildContext dbA.snapshots dbA.derivedKpis campaign cid today).1.currentAllocations ((dbA.proposals.filter (fun p => p.campaignId == cid && p.createdAt ≥ now1 - 60)).map (·.createdAt)) now1 e))).filter (fun ec => ec.2.all (·.passed))) :=
              List.mem_filter.mpr ⟨List.mem_map_of_mem _ he, h1⟩
            obtain ⟨p, hpmem, hpa, hpc, hpt⟩ :=
              createProposals_covers cid now1 _ dbA.methods dbA.nextId _ hin
            have hqmem : calibrateAndRoute now1 (dbA.snapshots.filter (fun s => s.campaignId == cid)).length (buildContext dbA.snapshots dbA.derivedKpis campaign cid today).2.1.length p ∈ ((createProposals cid now1 (((evaluateAll (buildContext dbA.snapshots dbA.derivedKpis campaign cid today).1).map (fun e => (e, guardrailChecksFor dbA.proposals cid (buildContext dbA.snapshots dbA.derivedKpis campaign cid today).1.currentAllocations ((dbA.proposals.filter (fun p => p.campaignId == cid && p.createdAt ≥ now1 - 60)).map (·.createdAt)) now1 e))).filter (fun ec => ec.2.all (·.passed))) dbA.methods dbA.nextId).2.2.map (calibrateAndRoute now1 (dbA.snapshots.filter (fun s => s.campaignId == cid)).length (buildContext dbA.snapshots dbA.derivedKpis campaign cid today).2.1.length)) :=
              List.mem_map_of_mem _ hpmem
            obtain ⟨qa, qc, qt⟩ := calibrateAndRoute_key now1 (dbA.snapshots.filter (fun s => s.campaignId == cid)).length (buildContext dbA.snapshots dbA.derivedKpis campaign cid today).2.1.length p
            obtain ⟨m, hm, hle⟩ := lastFiredAt_ge_of_mem
              (dbA.proposals ++ ((createProposals cid now1 (((evaluateAll (buildContext dbA.snapshots dbA.derivedKpis campaign cid today).1).map (fun e => (e, guardrailChecksFor dbA.proposals cid (buildContext dbA.snapshots dbA.derivedKpis campaign cid today).1.currentAllocations ((dbA.proposals.filter (fun p => p.campaignId == cid && p.createdAt ≥ now1 - 60)).map (·.createdAt)) now1 e))).filter (fun ec => ec.2.all (·.passed))) dbA.methods dbA.nextId).2.2.map (calibrateAndRoute now1 (dbA.snapshots.filter (fun s => s.campaignId == cid)).length (buildContext dbA.snapshots dbA.derivedKpis campaign cid today).2.1.length))) cid e.actionType _
              (List.mem_append_right _ hqmem) (qc.trans hpc) (qa.trans hpa)
            have hlastB : lastFiredAt dbB.proposals cid e.actionType = some m := by
              rw [lastFiredAt_congr dbB.proposals
                (dbA.proposals ++ ((createProposals cid now1 (((evaluateAll (buildContext dbA.snapshots dbA.derivedKpis campaign cid today).1).map (fun e => (e, guardrailChecksFor dbA.proposals cid (buildContext dbA.snapshots dbA.derivedKpis campaign cid today).1.currentAllocations ((dbA.proposals.filter (fun p => p.campaignId == cid && p.createdAt ≥ now1 - 60)).map (·.createdAt)) now1 e))).filter (fun ec => ec.2.all (·.passed))) dbA.methods dbA.nextId).2.2.map (calibrateAndRoute now1 (dbA.snapshots.filter (fun s => s.campaignId == cid)).length (buildContext dbA.snapshots dbA.derivedKpis campaign cid today).2.1.length))) hpropsA cid e.actionType]
              exact hm
            have hnow1 : now1 ≤ m := by
              rw [qt, hpt] at hle
              exact hle
            exact checks_cooldown_fail dbB.proposals cid _ _ now2 e m hlastB
              (by linarith)
          · rw [Bool.not_eq_true, cycleOne_checks dbA.proposals cid hnop _ now1 e] at h1
            obtain ⟨h2, h3⟩ := Bool.or_eq_false_iff.mp h1
            have hb : (e.actionType == "budget_reallocation") = true := by
              simpa using h2
            exact checks_budget_fail dbB.proposals cid _ _ now2 e hb h3
        rw [hrun2]
        dsimp only
        rw [hpass]
        constructor
        · rfl
        · exact List.append_nil _


/-- C4 (amended): from a store holding no proposal of the campaign, two
back-to-back monitor cycles (the second within the cooldown window of the
first) with no new snapshots in between create no proposal in the second
cycle — the engine either evaluates nothing, or the cooldown guardrail
(armed by the first cycle's proposals) or the unchanged deterministic
budget/floor checks reject every evaluation — and the proposal table
gains no row. -/
theorem runCycle_twice_no_new_proposals (db : Db) (cid : ℕ)
    (now1 now2 : ℚ) (today : ℤ)
    (hnop : ∀ p ∈ db.proposals, p.campaignId ≠ cid)
    (hgap : now2 - now1 < 60) :
    (runCycle (runCycle db cid now1 today).2 cid now2 today).1.engineResult.proposalsCreated
      = 0 ∧
    (runCycle (runCycle db cid now1 today).2 cid now2 today).2.proposals.map
        (fun p => p.id) =
      (runCycle db cid now1 today).2.proposals.map (fun p => p.id) := by
  obtain ⟨e1r, c1c, c1s, c1p, c1k⟩ := runCycle_decomp db cid now1 today
  obtain ⟨e1c, e1s, e1k⟩ := engineRun_effects db cid now1 today
  obtain ⟨e2r, c2c, c2s, c2p, c2k⟩ :=
    runCycle_decomp (runCycle db cid now1 today).2 cid now2 today
  have hblk := engineRun_second_blocked db (runCycle db cid now1 today).2 cid
    now1 now2 today hnop (c1c.trans e1c) (c1s.trans e1s)
    (nullAppend_trans e1k c1k) c1p hgap
  constructor
  · rw [e2r]
    exact hblk.1
  · rw [hblk.2] at c2p
    have hc := congrArg (List.map (fun k : ℕ × ℕ × String × ℚ => k.1)) c2p
    rw [List.map_map, List.map_map] at hc
    exact hc

/-- Counterexample for C4 as stated: with one pre-existing
`budget_reallocation` proposal created at minute 0, a cycle at minute 59
is cooldown-blocked (0 proposals), yet the back-to-back cycle at minute
61 — same snapshots — sails past the now-expired cooldown and creates a
proposal. -/
theorem runCycle_backtoback_counterexample :
    (runCycle dbC4 1 59 14).1.engineResult.proposalsCreated = 0 ∧
    (runCycle (runCycle dbC4 1 59 14).2 1 61 14).1.engineResult.proposalsCreated = 1 := by
  with_unfolding_all decide

/-- Witness for C4 (amended): `dbC7` holds no proposals; cycles at minutes
59 and 61 leave the second cycle empty-handed. -/
theorem runCycle_twice_witness :
    (runCycle (runCycle dbC7 1 59 14).2 1 61 14).1.engineResult.proposalsCreated = 0 ∧
    (runCycle (runCycle dbC7 1 59 14).2 1 61 14).2.proposals.map (fun p => p.id) =
      (runCycle dbC7 1 59 14).2.proposals.map (fun p => p.id) :=
  runCycle_twice_no_new_proposals dbC7 1 59 61 14
    (fun p hp => absurd hp (List.not_mem_nil p)) (by norm_num)

end DiMark
